import Mathlib

/-!
# gomux: command construction, addressing and the session/window/pane model

A shallow embedding of `cmd.go` and `main.go`.

* Go strings are Lean strings, Go slices are Lean lists (a nil slice and an
  empty slice are the same list).
* Go `int` values are integers; the two additions of the program
  (`NextWindowNumber + 1`, `p.Number + 1`) wrap around as Go's signed
  addition does, for the 64-bit `int` of the usual targets.
* Pointers (`*Pane`, `*Window`, `*Session`) are addresses into a heap with
  one store per struct type, or nil.  Dereferencing nil panics, which the
  model renders as `none`.
* `exec.Command("tmux", args...)` followed by `Run`, `Start` or
  `CombinedOutput` appends `args` to the trace of issued invocations and
  asks a runner (the tmux binary and the operating system, which the program
  does not control) for the outcome.
-/

namespace Gomux

/-! ## Go runtime: integers, formatting, errors -/

/-- Go string. -/
abbrev Str := String

/-- Width of Go's `int` on 64-bit targets. -/
def intBits : Nat := 64

/-- Largest value of Go's `int`. -/
def maxInt : Int := 2 ^ (intBits - 1) - 1

/-- Smallest value of Go's `int`. -/
def minInt : Int := -(2 ^ (intBits - 1))

/-- Whether an integer is a value of Go's `int`. -/
def isInt (x : Int) : Prop := minInt ≤ x ∧ x ≤ maxInt

instance (x : Int) : Decidable (isInt x) := by
  unfold isInt; exact inferInstance

/-- Two's complement wrap-around of a mathematical integer into Go's `int`. -/
def wrapInt (x : Int) : Int :=
  (x + 2 ^ (intBits - 1)) % 2 ^ intBits - 2 ^ (intBits - 1)

/-- Go's `a + b` on `int`. -/
def addInt (a b : Int) : Int := wrapInt (a + b)

/-- Go's `fmt.Sprint(n)` for an `int`: decimal digits, a leading `-` for a
negative number, no padding. -/
def Sprint (n : Int) : Str :=
  match n with
  | Int.ofNat m => Nat.repr m
  | Int.negSucc m => "-" ++ Nat.repr (m + 1)

/-- Go's `strings.Replace(s, "\"", "\\\"", -1)`: every double quote gets a
backslash in front of it. -/
def escapeQuotes (s : Str) : Str :=
  String.mk (s.data.flatMap fun c => if c = '"' then ['\\', '"'] else [c])

/-- Scanning loop of `strings.Split` for a one-character separator: `cur`
holds the characters of the current piece, last first. -/
def strings.splitLoop (sep : Char) : List Char → List Char → List Str
  | [], cur => [String.mk cur.reverse]
  | c :: cs, cur =>
    if c = sep then String.mk cur.reverse :: strings.splitLoop sep cs []
    else strings.splitLoop sep cs (c :: cur)

/-- Go's `strings.Split(s, sep)` for a one-character separator: the pieces
between the separators, empty pieces included. -/
def strings.Split (s : Str) (sep : Char) : List Str :=
  strings.splitLoop sep s.data []

/-- Go's `strings.Contains(s, substr)`. -/
def strings.Contains (s substr : Str) : Bool :=
  decide (substr.data <:+: s.data)

/-- Go `error` values as far as the program tells them apart: the type switch
`err.(*exec.ExitError)` of `CheckSessionExists` separates a non-zero exit from
every other failure. -/
inductive Error where
  | exitError (msg : Str)
  | other (msg : Str)
  deriving DecidableEq, Repr

/-! ## cmd.go: intents and their argument vectors -/

structure killSession where
  targetSession : Str
  deriving DecidableEq, Repr

structure newSession where
  notAttachedToCurrentTerminal : Bool
  sessionName : Str
  windowName : Str
  workingDir : Str
  deriving DecidableEq, Repr

structure newWindow where
  targetWindow : List Str
  windowName : Str
  workingDir : Str
  deriving DecidableEq, Repr

structure renameWindow where
  targetWindow : List Str
  windowName : Str
  deriving DecidableEq, Repr

structure splitWindow where
  horizontalSplit : Bool
  verticalSplit : Bool
  targetPane : Str
  workingDir : Str
  deriving DecidableEq, Repr

structure selectWindow where
  targetWindow : Str
  deriving DecidableEq, Repr

/-- Go's `for _, v := range xs { acc = append(acc, v) }`. -/
def appendEach (acc : List Str) (xs : List Str) : List Str :=
  xs.foldl (fun a v => a ++ [v]) acc

/-- `func (session killSession) String()`. -/
def killSession.String (session : killSession) : List Str :=
  let killCommand : List Str := []
  let killCommand := killCommand ++ ["kill-session", "-t", session.targetSession]
  killCommand

/-- `func (session newSession) String()`. -/
def newSession.String (session : newSession) : List Str :=
  let newSessionCommand : List Str := []
  let newSessionCommand := newSessionCommand ++ ["new-session"]
  let newSessionCommand :=
    if session.notAttachedToCurrentTerminal = true then newSessionCommand ++ ["-d"]
    else newSessionCommand
  let newSessionCommand :=
    if session.sessionName ≠ "" then newSessionCommand ++ ["-s", session.sessionName]
    else newSessionCommand
  let newSessionCommand :=
    if session.windowName ≠ "" then newSessionCommand ++ ["-n", session.windowName]
    else newSessionCommand
  let newSessionCommand :=
    if session.workingDir ≠ "" then newSessionCommand ++ ["-c", session.workingDir]
    else newSessionCommand
  newSessionCommand

/-- `func (window splitWindow) String()`. -/
def splitWindow.String (window : splitWindow) : List Str :=
  let splitWindowCommand : List Str := []
  let splitWindowCommand := splitWindowCommand ++ ["split-window"]
  let splitWindowCommand :=
    if window.horizontalSplit = true then splitWindowCommand ++ ["-h"]
    else splitWindowCommand
  let splitWindowCommand :=
    if window.verticalSplit = true then splitWindowCommand ++ ["-v"]
    else splitWindowCommand
  let splitWindowCommand :=
    if window.targetPane ≠ "" then splitWindowCommand ++ ["-t", window.targetPane]
    else splitWindowCommand
  let splitWindowCommand :=
    if window.workingDir ≠ "" then splitWindowCommand ++ ["-c", window.workingDir]
    else splitWindowCommand
  splitWindowCommand

/-- `func (window newWindow) String()`. -/
def newWindow.String (window : newWindow) : List Str :=
  let newWindowCommand : List Str := []
  let newWindowCommand := newWindowCommand ++ ["new-window"]
  let newWindowCommand :=
    if window.targetWindow.length ≠ 0 then appendEach newWindowCommand window.targetWindow
    else newWindowCommand
  let newWindowCommand :=
    if window.windowName ≠ "" then newWindowCommand ++ ["-n", window.windowName]
    else newWindowCommand
  let newWindowCommand :=
    if window.workingDir ≠ "" then newWindowCommand ++ ["-c", window.workingDir]
    else newWindowCommand
  newWindowCommand

/-- `func (window renameWindow) String()`. -/
def renameWindow.String (window : renameWindow) : List Str :=
  let renameWindowCommand : List Str := []
  let renameWindowCommand := renameWindowCommand ++ ["rename-window"]
  let renameWindowCommand :=
    if window.targetWindow.length ≠ 0 then appendEach renameWindowCommand window.targetWindow
    else renameWindowCommand
  let renameWindowCommand :=
    if window.windowName ≠ "" then renameWindowCommand ++ [window.windowName]
    else renameWindowCommand
  renameWindowCommand

/-- `func (window selectWindow) String()`. -/
def selectWindow.String (window : selectWindow) : List Str :=
  let selectWindowCommand : List Str := []
  let selectWindowCommand := selectWindowCommand ++ ["select-window"]
  let selectWindowCommand :=
    if window.targetWindow ≠ "" then selectWindowCommand ++ ["-t", window.targetWindow]
    else selectWindowCommand
  selectWindowCommand

/-! ## main.go: data model -/

/-- A pointer: `none` is nil, `some a` is the address `a` in the store of the
pointed-to struct type. -/
abbrev Ptr := Option Nat

structure Pane where
  Number : Int
  commands : List Str
  window : Ptr
  deriving DecidableEq, Repr

structure Session where
  Name : Str
  Directory : Str
  Windows : List Ptr
  directory : Str
  NextWindowNumber : Int
  deriving DecidableEq, Repr

structure SessionAttr where
  Name : Str
  Directory : Str
  deriving DecidableEq, Repr

structure SplitAttr where
  Directory : Str
  deriving DecidableEq, Repr

structure Window where
  Number : Int
  Name : Str
  Directory : Str
  Session : Ptr
  Panes : List Ptr
  SplitCommands : List Str
  deriving DecidableEq, Repr

structure WindowAttr where
  Name : Str
  Directory : Str
  deriving DecidableEq, Repr

/-- The heap: one store per struct type; an address is an index. -/
structure Heap where
  panes : List Pane
  windows : List Window
  sessions : List Session
  deriving DecidableEq, Repr

/-- Dereference a `*Pane`; `none` is the nil-pointer panic. -/
def Heap.loadPane (h : Heap) (p : Ptr) : Option Pane :=
  match p with
  | none => none
  | some a => h.panes[a]?

/-- Dereference a `*Window`; `none` is the nil-pointer panic. -/
def Heap.loadWindow (h : Heap) (p : Ptr) : Option Window :=
  match p with
  | none => none
  | some a => h.windows[a]?

/-- Dereference a `*Session`; `none` is the nil-pointer panic. -/
def Heap.loadSession (h : Heap) (p : Ptr) : Option Session :=
  match p with
  | none => none
  | some a => h.sessions[a]?

/-- Write through a `*Window`; `none` is the nil-pointer panic. -/
def Heap.storeWindow (h : Heap) (p : Ptr) (w : Window) : Option Heap :=
  match p with
  | none => none
  | some a => if a < h.windows.length then some { h with windows := h.windows.set a w } else none

/-- Write through a `*Session`; `none` is the nil-pointer panic. -/
def Heap.storeSession (h : Heap) (p : Ptr) (s : Session) : Option Heap :=
  match p with
  | none => none
  | some a => if a < h.sessions.length then some { h with sessions := h.sessions.set a s } else none

/-- Result of one tmux process: its combined output and its error. -/
structure Outcome where
  output : Str
  err : Option Error
  deriving DecidableEq, Repr

/-- The tmux binary and the operating system: the outcome of an invocation,
given the invocations issued before it and its argument vector. -/
abbrev Runner := List (List Str) → List Str → Outcome

/-- Program state: the heap and the argument vectors handed to
`exec.Command("tmux", ...)` so far, oldest first. -/
structure State where
  heap : Heap
  trace : List (List Str)
  deriving DecidableEq, Repr

/-- `exec.Command("tmux", args...)` followed by `Run()`, `Start()` or
`CombinedOutput()`. -/
def tmux (run : Runner) (args : List Str) (σ : State) : Outcome × State :=
  (run σ.trace args, { σ with trace := σ.trace ++ [args] })

/-! ## main.go: operations -/

/-- `func NewPane(number int, window *Window) (newPane *Pane)`. -/
def NewPane (number : Int) (window : Ptr) (σ : State) : Ptr × State :=
  let p : Pane := { Number := number, commands := [], window := window }
  (some σ.heap.panes.length, { σ with heap := { σ.heap with panes := σ.heap.panes ++ [p] } })

/-- `func (p *Pane) getTargetName() (targetName string)`. -/
def Pane.getTargetName (p : Ptr) (h : Heap) : Option Str := do
  let pane ← h.loadPane p
  let window ← h.loadWindow pane.window
  let session ← h.loadSession window.Session
  pure (session.Name ++ ":" ++ Sprint window.Number ++ "." ++ Sprint pane.Number)

/-- `func (window *Window) getTargetWindow() (targetWindow []string)`. -/
def Window.getTargetWindow (window : Ptr) (h : Heap) : Option (List Str) := do
  let w ← h.loadWindow window
  let session ← h.loadSession w.Session
  let args : List Str := ["-t", session.Name ++ ":" ++ Sprint w.Number]
  pure args

/-- `func (window *Window) AddPane(withNumber int) (newPane *Pane)`. -/
def Window.AddPane (window : Ptr) (withNumber : Int) (σ : State) : Option (Ptr × State) :=
  match NewPane withNumber window σ with
  | (pane, σ) => do
    let w ← σ.heap.loadWindow window
    let h ← σ.heap.storeWindow window { w with Panes := w.Panes ++ [pane] }
    pure (pane, { σ with heap := h })

/-- `func (window *Window) Select() (err error)`. -/
def Window.Select (run : Runner) (window : Ptr) (σ : State) : Option (Option Error × State) := do
  let w ← σ.heap.loadWindow window
  let session ← σ.heap.loadSession w.Session
  let rawCmd : selectWindow := { targetWindow := session.Name ++ ":" ++ Sprint w.Number }
  match tmux run rawCmd.String σ with
  | (out, σ) => pure (out.err, σ)

/-- `func (p *Pane) resize(prefix string, num int)`. -/
def Pane.resize (run : Runner) (p : Ptr) (pfx : Str) (num : Int) (σ : State) : Option State := do
  let target ← Pane.getTargetName p σ.heap
  let rawCmd : List Str := ["resize-pane", "-t", target, "-" ++ pfx, Sprint num]
  match tmux run rawCmd σ with
  | (_, σ) => pure σ

/-- `func (p *Pane) ResizeRight(num int)`. -/
def Pane.ResizeRight (run : Runner) (p : Ptr) (num : Int) (σ : State) : Option State :=
  Pane.resize run p "R" num σ

/-- `func (p *Pane) ResizeLeft(num int)`. -/
def Pane.ResizeLeft (run : Runner) (p : Ptr) (num : Int) (σ : State) : Option State :=
  Pane.resize run p "L" num σ

/-- `func (p *Pane) ResizeUp(num int)`. -/
def Pane.ResizeUp (run : Runner) (p : Ptr) (num : Int) (σ : State) : Option State :=
  Pane.resize run p "U" num σ

/-- `func (p *Pane) ResizeDown(num int)`. -/
def Pane.ResizeDown (run : Runner) (p : Ptr) (num : Int) (σ : State) : Option State :=
  Pane.resize run p "D" num σ

/-- `func createWindow(number int, attr WindowAttr, session *Session)`. -/
def createWindow (run : Runner) (number : Int) (attr : WindowAttr) (session : Ptr) (σ : State) :
    Option ((Ptr × Option Error) × State) :=
  let w0 : Window :=
    { Name := attr.Name, Directory := attr.Directory, Number := number, Session := session,
      Panes := [], SplitCommands := [] }
  let window : Ptr := some σ.heap.windows.length
  let σ : State := { σ with heap := { σ.heap with windows := σ.heap.windows ++ [w0] } }
  match Window.AddPane window 0 σ with
  | none => none
  | some (_, σ) =>
    let step : Option (Option Error × State) :=
      if number ≠ 0 then do
        let targetWindow ← Window.getTargetWindow window σ.heap
        let w ← σ.heap.loadWindow window
        let rawCmd : newWindow :=
          { targetWindow := targetWindow, windowName := w.Name, workingDir := attr.Directory }
        match tmux run rawCmd.String σ with
        | (out, σ) => pure (out.err, σ)
      else pure (none, σ)
    match step with
    | none => none
    | some (err, σ) =>
      if err ≠ none then some ((window, err), σ)
      else do
        let targetWindow ← Window.getTargetWindow window σ.heap
        let w ← σ.heap.loadWindow window
        let rawCmd : renameWindow := { targetWindow := targetWindow, windowName := w.Name }
        match tmux run rawCmd.String σ with
        | (out, σ) => pure ((window, out.err), σ)

/-- `func (s *Session) AddWindowAttr(attr WindowAttr) (window *Window, err error)`. -/
def Session.AddWindowAttr (run : Runner) (s : Ptr) (attr : WindowAttr) (σ : State) :
    Option ((Ptr × Option Error) × State) := do
  let s0 ← σ.heap.loadSession s
  match ← createWindow run s0.NextWindowNumber attr s σ with
  | ((w, err), σ) =>
    let s1 ← σ.heap.loadSession s
    let h1 ← σ.heap.storeSession s { s1 with Windows := s1.Windows ++ [w] }
    let s2 ← h1.loadSession s
    let h2 ← h1.storeSession s { s2 with NextWindowNumber := addInt s2.NextWindowNumber 1 }
    pure ((w, err), { σ with heap := h2 })

/-- `func (s *Session) AddWindow(name string) (window *Window, err error)`. -/
def Session.AddWindow (run : Runner) (s : Ptr) (name : Str) (σ : State) :
    Option ((Ptr × Option Error) × State) :=
  let attr : WindowAttr := { Name := name, Directory := "" }
  Session.AddWindowAttr run s attr σ

/-- `func (window *Window) Exec(command string) (err error)`; the receiver is
not dereferenced. -/
def Window.Exec (run : Runner) (_window : Ptr) (command : Str) (σ : State) :
    Option Error × State :=
  let rawCommand := strings.Split command ' '
  match tmux run rawCommand σ with
  | (out, σ) => (out.err, σ)

/-- `func (window *Window) SetConfig(configCommand string) (err error)`. -/
def Window.SetConfig (run : Runner) (window : Ptr) (configCommand : Str) (σ : State) :
    Option Error × State :=
  Window.Exec run window configCommand σ

/-- `func (window *Window) KillPane(withNumber int) (err error)`: the result of
`Exec` is dropped and the named result stays nil.  `fmt.Sprint` puts no space
between a string operand and a number. -/
def Window.KillPane (run : Runner) (window : Ptr) (withNumber : Int) (σ : State) :
    Option Error × State :=
  match Window.Exec run window ("kill-pane -t " ++ Sprint withNumber) σ with
  | (_, σ) => (none, σ)

/-- `func (window *Window) Pane(number int) (currentPane *Pane)`; an index out
of range panics. -/
def Window.Pane (window : Ptr) (number : Int) (h : Heap) : Option Ptr := do
  let w ← h.loadWindow window
  if 0 ≤ number then w.Panes[number.toNat]? else none

/-- `func (p *Pane) Exec(command string) (err error)`. -/
def Pane.Exec (run : Runner) (p : Ptr) (command : Str) (σ : State) :
    Option (Option Error × State) := do
  let target ← Pane.getTargetName p σ.heap
  let rawCommand : List Str := ["send-keys", "-t", target, escapeQuotes command, "C-m"]
  match tmux run rawCommand σ with
  | (out, σ) => pure (out.err, σ)

/-- `func (p *Pane) SetName(name string) (err error)`: the result of `Exec` is
dropped and the named result stays nil. -/
def Pane.SetName (run : Runner) (p : Ptr) (name : Str) (σ : State) :
    Option (Option Error × State) := do
  let pane ← σ.heap.loadPane p
  match Window.Exec run pane.window
      ("select-pane -t " ++ Sprint pane.Number ++ " -T " ++ name) σ with
  | (_, σ) => pure (none, σ)

/-- `func (p *Pane) Vsplit() (splitPane *Pane)`. -/
def Pane.Vsplit (run : Runner) (p : Ptr) (σ : State) : Option (Ptr × State) := do
  let target ← Pane.getTargetName p σ.heap
  let rawCmd : splitWindow :=
    { horizontalSplit := true, verticalSplit := false, targetPane := target, workingDir := "" }
  match tmux run rawCmd.String σ with
  | (_, σ) =>
    let pane ← σ.heap.loadPane p
    Window.AddPane pane.window (addInt pane.Number 1) σ

/-- `func (p *Pane) VsplitWAttr(attr SplitAttr) (splitPane *Pane, err error)`. -/
def Pane.VsplitWAttr (run : Runner) (p : Ptr) (attr : SplitAttr) (σ : State) :
    Option ((Ptr × Option Error) × State) := do
  let c : Str ←
    if attr.Directory ≠ "" then pure attr.Directory
    else do
      let pane ← σ.heap.loadPane p
      let w ← σ.heap.loadWindow pane.window
      if w.Directory ≠ "" then pure w.Directory
      else do
        let session ← σ.heap.loadSession w.Session
        if session.Directory ≠ "" then pure session.Directory else pure ""
  let target ← Pane.getTargetName p σ.heap
  let rawCmd : splitWindow :=
    { horizontalSplit := true, verticalSplit := false, targetPane := target, workingDir := c }
  match tmux run rawCmd.String σ with
  | (out, σ) =>
    let pane ← σ.heap.loadPane p
    let (splitPane, σ) ← Window.AddPane pane.window (addInt pane.Number 1) σ
    pure ((splitPane, out.err), σ)

/-- `func (p *Pane) Split() (splitPane *Pane, err error)`. -/
def Pane.Split (run : Runner) (p : Ptr) (σ : State) :
    Option ((Ptr × Option Error) × State) := do
  let target ← Pane.getTargetName p σ.heap
  let rawCmd : splitWindow :=
    { horizontalSplit := false, verticalSplit := true, targetPane := target, workingDir := "" }
  match tmux run rawCmd.String σ with
  | (out, σ) =>
    let pane ← σ.heap.loadPane p
    let (splitPane, σ) ← Window.AddPane pane.window (addInt pane.Number 1) σ
    pure ((splitPane, out.err), σ)

/-- `func (p *Pane) SplitWAttr(attr SplitAttr) (splitPane *Pane, err error)`. -/
def Pane.SplitWAttr (run : Runner) (p : Ptr) (attr : SplitAttr) (σ : State) :
    Option ((Ptr × Option Error) × State) := do
  let c : Str ←
    if attr.Directory ≠ "" then pure attr.Directory
    else do
      let pane ← σ.heap.loadPane p
      let w ← σ.heap.loadWindow pane.window
      if w.Directory ≠ "" then pure w.Directory
      else do
        let session ← σ.heap.loadSession w.Session
        if session.Directory ≠ "" then pure session.Directory else pure ""
  let target ← Pane.getTargetName p σ.heap
  let rawCmd : splitWindow :=
    { horizontalSplit := false, verticalSplit := true, targetPane := target, workingDir := c }
  match tmux run rawCmd.String σ with
  | (out, σ) =>
    let pane ← σ.heap.loadPane p
    let (splitPane, σ) ← Window.AddPane pane.window (addInt pane.Number 1) σ
    pure ((splitPane, out.err), σ)

/-- `func CheckSessionExists(name string) (exists bool, err error)`. -/
def CheckSessionExists (run : Runner) (name : Str) (σ : State) :
    (Bool × Option Error) × State :=
  match tmux run ["ls", "-F", "'#\x7bsession_name\x7d'"] σ with
  | (out, σ) =>
    match out.err with
    | some err =>
      match err with
      | Error.exitError _ =>
        if strings.Contains out.output "no server running"
            || strings.Contains out.output "no such file or directory" then
          ((false, none), σ)
        else ((false, some err), σ)
      | Error.other _ => ((false, some err), σ)
    | none =>
      if strings.Contains out.output name then ((true, none), σ)
      else ((false, none), σ)

/-- `func KillSession(name string) (err error)`. -/
def KillSession (run : Runner) (name : Str) (σ : State) : Option Error × State :=
  match CheckSessionExists run name σ with
  | ((false, err), σ) =>
    if err ≠ none then (err, σ)
    else (none, σ)
  | ((true, _), σ) =>
    let sess : killSession := { targetSession := name }
    let rawCmd := sess.String
    match tmux run rawCmd σ with
    | (out, σ) => (out.err, σ)

/-- `func NewSessionAttr(p SessionAttr) (session *Session, err error)`. -/
def NewSessionAttr (run : Runner) (p : SessionAttr) (σ : State) :
    (Ptr × Option Error) × State :=
  let s0 : Session :=
    { Name := p.Name, Directory := p.Directory, Windows := [], directory := "",
      NextWindowNumber := 0 }
  let s : Ptr := some σ.heap.sessions.length
  let σ : State := { σ with heap := { σ.heap with sessions := σ.heap.sessions ++ [s0] } }
  let rawCmd : newSession :=
    { notAttachedToCurrentTerminal := true, sessionName := p.Name, workingDir := p.Directory,
      windowName := "tmp" }
  match tmux run rawCmd.String σ with
  | (out, σ) => ((s, out.err), σ)

/-- `func NewSession(name string) (session *Session, err error)`. -/
def NewSession (run : Runner) (name : Str) (σ : State) : (Ptr × Option Error) × State :=
  let p : SessionAttr := { Name := name, Directory := "" }
  match KillSession run p.Name σ with
  | (err, σ) =>
    if err ≠ none then ((none, err), σ)
    else NewSessionAttr run p σ

/-! ## Example states -/

/-- A heap with one session named `s`, its windows 0, 1 and 2, and panes 0 and
1 of window 2 and pane 2 of window 1. -/
def exampleHeap : Heap :=
  { sessions := [{ Name := "s", Directory := "", Windows := [some 0, some 1, some 2],
                   directory := "", NextWindowNumber := 3 }],
    windows := [{ Number := 0, Name := "a", Directory := "", Session := some 0,
                  Panes := [], SplitCommands := [] },
                { Number := 1, Name := "b", Directory := "", Session := some 0,
                  Panes := [some 2], SplitCommands := [] },
                { Number := 2, Name := "c", Directory := "", Session := some 0,
                  Panes := [some 0, some 1], SplitCommands := [] }],
    panes := [{ Number := 0, commands := [], window := some 2 },
              { Number := 1, commands := [], window := some 2 },
              { Number := 2, commands := [], window := some 1 }] }

/-- The example heap with nothing issued yet. -/
def exampleState : State := { heap := exampleHeap, trace := [] }

/-- A runner under which every invocation succeeds silently. -/
def okRunner : Runner := fun _ _ => { output := "", err := none }

/-- A runner under which every invocation exits non-zero. -/
def failRunner : Runner := fun _ _ => { output := "", err := some (Error.exitError "exit status 1") }

/-- A fresh session named `s`, as `NewSessionAttr` builds it. -/
def freshState : State :=
  { heap := { sessions := [{ Name := "s", Directory := "", Windows := [], directory := "",
                              NextWindowNumber := 0 }],
              windows := [], panes := [] },
    trace := [] }

/-- A session named `s` whose counter holds the largest `int`. -/
def lastNumberState : State :=
  { heap := { sessions := [{ Name := "s", Directory := "", Windows := [], directory := "",
                              NextWindowNumber := 9223372036854775807 }],
              windows := [], panes := [] },
    trace := [] }

/-- The heap `createWindow` leaves behind: the new window, holding its one
pane, is allocated last in the window store and the pane last in the pane
store. -/
def heapAfterCreate (h : Heap) (number : Int) (attr : WindowAttr) (session : Ptr) : Heap :=
  { panes := h.panes ++ [{ Number := 0, commands := [], window := some h.windows.length }],
    windows := h.windows ++
      [{ Number := number, Name := attr.Name, Directory := attr.Directory, Session := session,
         Panes := [some h.panes.length], SplitCommands := [] }],
    sessions := h.sessions }

/-- The heap `AddWindowAttr` leaves behind on the session at address `a`. -/
def heapAfterAdd (h : Heap) (a : Nat) (sess : Session) (attr : WindowAttr) : Heap :=
  { heapAfterCreate h sess.NextWindowNumber attr (some a) with
    sessions := h.sessions.set a
      { sess with Windows := sess.Windows ++ [some h.windows.length],
                  NextWindowNumber := addInt sess.NextWindowNumber 1 } }

/-- A session with directory `/s` whose window 0 has directory `/w` and one
pane, numbered 0. -/
def dirState : State :=
  { heap := { sessions := [{ Name := "s", Directory := "/s", Windows := [some 0],
                              directory := "", NextWindowNumber := 1 }],
              windows := [{ Number := 0, Name := "a", Directory := "/w", Session := some 0,
                            Panes := [some 0], SplitCommands := [] }],
              panes := [{ Number := 0, commands := [], window := some 0 }] },
    trace := [] }

/-- A window whose only pane was added with the largest `int` as its number. -/
def lastPaneState : State :=
  { heap := { sessions := [{ Name := "s", Directory := "", Windows := [some 0],
                              directory := "", NextWindowNumber := 1 }],
              windows := [{ Number := 0, Name := "a", Directory := "", Session := some 0,
                            Panes := [some 0], SplitCommands := [] }],
              panes := [{ Number := 9223372036854775807, commands := [], window := some 0 }] },
    trace := [] }

/-- A runner under which tmux lists one live session, `x`, and every other
invocation succeeds silently. -/
def listsX : Runner := fun _ args =>
  if args.head? = some "ls" then { output := "x\n", err := none }
  else { output := "", err := none }

/-- The heap a split leaves behind: a pane numbered `n` allocated last in the
pane store and appended last to the panes of the window `w` at address `wa`. -/
def heapAfterSplit (h : Heap) (wa : Nat) (w : Window) (n : Int) : Heap :=
  { panes := h.panes ++ [{ Number := n, commands := [], window := some wa }],
    windows := h.windows.set wa { w with Panes := w.Panes ++ [some h.panes.length] },
    sessions := h.sessions }

/-- The working directory the attribute-carrying splits resolve: the
attribute's, else the window's, else the session's. -/
def resolvedDir (attr : SplitAttr) (w : Window) (sess : Session) : Str :=
  if attr.Directory ≠ "" then attr.Directory
  else if w.Directory ≠ "" then w.Directory
  else sess.Directory

/-- A runner under which the listing fails because no tmux server runs. -/
def noServer : Runner := fun _ args =>
  if args.head? = some "ls" then
    { output := "no server running on /tmp/tmux-0/default\n",
      err := some (Error.exitError "exit status 1") }
  else { output := "", err := none }

/-- A runner under which the tmux binary cannot be started. -/
def notFound : Runner := fun _ _ =>
  { output := "", err := some (Error.other "executable file not found in $PATH") }

/-- The four split operations of a pane. -/
inductive SplitOp where
  | split
  | splitWAttr (attr : SplitAttr)
  | vsplit
  | vsplitWAttr (attr : SplitAttr)
  deriving DecidableEq, Repr

/-- One split operation on the pane `p`: the pane it returns and the state it
leaves. -/
def SplitOp.apply (run : Runner) (op : SplitOp) (p : Ptr) (σ : State) : Option (Ptr × State) :=
  match op with
  | SplitOp.split => (Pane.Split run p σ).map fun r => (r.1.1, r.2)
  | SplitOp.splitWAttr attr => (Pane.SplitWAttr run p attr σ).map fun r => (r.1.1, r.2)
  | SplitOp.vsplit => Pane.Vsplit run p σ
  | SplitOp.vsplitWAttr attr => (Pane.VsplitWAttr run p attr σ).map fun r => (r.1.1, r.2)

/-- A caller that performs the split operations `ops` in order, each one on
the pane that is last in `window.Panes` at that moment. -/
def splitLast (run : Runner) (window : Ptr) : List SplitOp → State → Option State
  | [], σ => some σ
  | op :: ops, σ =>
    match σ.heap.loadWindow window with
    | none => none
    | some w =>
      match w.Panes.getLast? with
      | none => none
      | some p =>
        match op.apply run p σ with
        | none => none
        | some (_, σ) => splitLast run window ops σ

/-- The window at address `wa` is live, belongs to a live session and holds
`len` panes, and the pane at every index `i` is live, is numbered `i` and
points back to the window. -/
def PanesNumbered (h : Heap) (wa : Nat) (len : Nat) : Prop :=
  ∃ w sess, h.windows[wa]? = some w ∧ h.loadSession w.Session = some sess
    ∧ w.Panes.length = len
    ∧ ∀ i, i < len → ∃ pa pane, w.Panes[i]? = some (some pa) ∧ h.panes[pa]? = some pane
        ∧ pane.Number = (i : Int) ∧ pane.window = some wa

/-! ## Helper lemmas -/

theorem appendEach_eq (acc xs : List Str) : appendEach acc xs = acc ++ xs := by
  unfold appendEach
  induction xs generalizing acc with
  | nil => simp
  | cons x xs ih => simp [ih]

theorem appendEach_guard (acc xs : List Str) :
    (if xs.length ≠ 0 then appendEach acc xs else acc) = acc ++ xs := by
  cases xs with
  | nil => simp
  | cons x xs => simp [appendEach_eq]

theorem append_colon_ne_empty (a b : Str) : a ++ ":" ++ b ≠ "" := by
  intro h
  have := congrArg String.length h
  simp only [String.length_append] at this
  have hc : ":".length = 1 := by decide
  have h0 : "".length = 0 := by decide
  omega

/-! ## Addressing -/

/-- C1: for a pane numbered `p` attached to a window numbered `w` of a
session named `s`, `getTargetName` returns `s`, a colon, `w` in decimal, a
dot and `p` in decimal. -/
theorem getTargetName_format (h : Heap) (p : Ptr) (pane : Pane) (window : Window)
    (session : Session) (hp : h.loadPane p = some pane)
    (hw : h.loadWindow pane.window = some window)
    (hs : h.loadSession window.Session = some session) :
    Pane.getTargetName p h
      = some (session.Name ++ ":" ++ Sprint window.Number ++ "." ++ Sprint pane.Number) := by
  simp [Pane.getTargetName, hp, hw, hs]

theorem getTargetName_format_witness :
    exampleHeap.loadPane (some 1) = some { Number := 1, commands := [], window := some 2 }
    ∧ (exampleHeap.loadWindow (some 2)).map (fun w => (w.Number, w.Session)) = some (2, some 0)
    ∧ (exampleHeap.loadSession (some 0)).map (fun x => x.Name) = some "s"
    ∧ Pane.getTargetName (some 1) exampleHeap = some "s:2.1" :=
  ⟨by decide, by decide, by decide,
   (getTargetName_format exampleHeap (some 1) _ _ _ rfl rfl rfl).trans (by decide)⟩

/-- C2: for a window numbered `n` of a session named `s` (empty or not),
`getTargetWindow` returns the pair `-t`, `s:n`, and `Select` issues exactly
the one vector `select-window -t s:n`, leaves the heap alone and returns the
outcome of that invocation. -/
theorem getTargetWindow_select (run : Runner) (σ : State) (window : Ptr) (w : Window)
    (session : Session) (hw : σ.heap.loadWindow window = some w)
    (hs : σ.heap.loadSession w.Session = some session) :
    Window.getTargetWindow window σ.heap
        = some ["-t", session.Name ++ ":" ++ Sprint w.Number]
    ∧ Window.Select run window σ
        = some ((run σ.trace
                  ["select-window", "-t", session.Name ++ ":" ++ Sprint w.Number]).err,
                { heap := σ.heap,
                  trace := σ.trace
                    ++ [["select-window", "-t", session.Name ++ ":" ++ Sprint w.Number]] }) := by
  constructor
  · simp [Window.getTargetWindow, hw, hs]
  · simp [Window.Select, hw, hs, selectWindow.String, tmux, append_colon_ne_empty]

theorem getTargetWindow_select_witness :
    (exampleState.heap.loadWindow (some 0)).map (fun w => (w.Number, w.Session))
        = some (0, some 0)
    ∧ (exampleState.heap.loadSession (some 0)).map (fun x => x.Name) = some "s"
    ∧ Window.getTargetWindow (some 0) exampleState.heap = some ["-t", "s:0"]
    ∧ (Window.Select okRunner (some 0) exampleState).map (fun r => r.2.trace)
        = some [["select-window", "-t", "s:0"]] := by
  have h := getTargetWindow_select okRunner exampleState (some 0) _ _ rfl rfl
  refine ⟨by decide, by decide, h.1.trans (by decide), ?_⟩
  rw [h.2]; decide

/-! ## Command builders -/

/-- C3: the kill-session builder returns exactly `kill-session`, `-t` and the
session name, for every name. -/
theorem killSession_String (name : Str) :
    (killSession.mk name).String = ["kill-session", "-t", name]
    ∧ (killSession.mk "foo").String = ["kill-session", "-t", "foo"] :=
  ⟨rfl, rfl⟩

/-- C4: the new-session builder returns `new-session` followed, in this
order, by `-d` iff detached, `-s` and the session name iff it is non-empty,
`-n` and the window name iff it is non-empty, `-c` and the directory iff it
is non-empty, and nothing else. -/
theorem newSession_String (d : Bool) (s w c : Str) :
    (newSession.mk d s w c).String
        = ["new-session"] ++ (if d = true then ["-d"] else [])
            ++ (if s ≠ "" then ["-s", s] else [])
            ++ (if w ≠ "" then ["-n", w] else [])
            ++ (if c ≠ "" then ["-c", c] else [])
    ∧ (newSession.mk true "s" "tmp" "").String
        = ["new-session", "-d", "-s", "s", "-n", "tmp"] := by
  refine ⟨?_, by decide⟩
  simp only [newSession.String]
  split_ifs <;> simp

/-- C5: the split-window builder returns `split-window` followed, in this
order, by `-h` iff horizontal, `-v` iff vertical, `-t` and the target iff it
is non-empty, `-c` and the directory iff it is non-empty, and nothing else;
with both directions set `-h` is immediately followed by `-v`. -/
theorem splitWindow_String (h v : Bool) (t c : Str) :
    (splitWindow.mk h v t c).String
        = ["split-window"] ++ (if h = true then ["-h"] else [])
            ++ (if v = true then ["-v"] else [])
            ++ (if t ≠ "" then ["-t", t] else [])
            ++ (if c ≠ "" then ["-c", c] else [])
    ∧ (splitWindow.mk true true t c).String
        = ["split-window", "-h", "-v"] ++ (if t ≠ "" then ["-t", t] else [])
            ++ (if c ≠ "" then ["-c", c] else []) := by
  constructor
  · simp only [splitWindow.String]
    split_ifs <;> simp
  · simp only [splitWindow.String]
    split_ifs <;> simp

/-- C6: the rename-window builder returns `rename-window`, then the target
arguments unchanged and in order, then the new name as a last positional
element iff it is non-empty, with no flag in front of it. -/
theorem renameWindow_String (ts : List Str) (n : Str) :
    (renameWindow.mk ts n).String
        = ["rename-window"] ++ ts ++ (if n ≠ "" then [n] else []) := by
  simp only [renameWindow.String, appendEach_guard]
  split_ifs <;> simp

/-- C7: on a pane whose target string is `t`, the four resize operations
issue exactly the one vector `resize-pane -t t -X n` with `X` being `R`, `L`,
`U`, `D` for right, left, up, down and `n` the amount in decimal, and leave
the heap alone. -/
theorem resize_vectors (run : Runner) (σ : State) (p : Ptr) (t : Str) (n : Int)
    (ht : Pane.getTargetName p σ.heap = some t) :
    Pane.ResizeRight run p n σ
        = some { heap := σ.heap,
                 trace := σ.trace ++ [["resize-pane", "-t", t, "-" ++ "R", Sprint n]] }
    ∧ Pane.ResizeLeft run p n σ
        = some { heap := σ.heap,
                 trace := σ.trace ++ [["resize-pane", "-t", t, "-" ++ "L", Sprint n]] }
    ∧ Pane.ResizeUp run p n σ
        = some { heap := σ.heap,
                 trace := σ.trace ++ [["resize-pane", "-t", t, "-" ++ "U", Sprint n]] }
    ∧ Pane.ResizeDown run p n σ
        = some { heap := σ.heap,
                 trace := σ.trace ++ [["resize-pane", "-t", t, "-" ++ "D", Sprint n]] } := by
  simp [Pane.ResizeRight, Pane.ResizeLeft, Pane.ResizeUp, Pane.ResizeDown, Pane.resize, ht,
    tmux]

theorem resize_vectors_witness :
    Pane.getTargetName (some 2) exampleState.heap = some "s:1.2"
    ∧ Pane.ResizeRight okRunner (some 2) 5 exampleState
        = some { heap := exampleHeap,
                 trace := [["resize-pane", "-t", "s:1.2", "-R", "5"]] } := by
  have h := resize_vectors okRunner exampleState (some 2) "s:1.2" 5 (by decide)
  refine ⟨by decide, ?_⟩
  rw [h.1]; decide

/-- C8 fails for `killSession`: with an empty session name the builder
returns `kill-session`, `-t` and an empty string. -/
theorem killSession_emits_empty_value :
    (killSession.mk "").String = ["kill-session", "-t", ""]
    ∧ "" ∈ (killSession.mk "").String := by
  decide

/-- C8, amended: the vectors of `newSession`, `newWindow`, `renameWindow`,
`splitWindow` and `selectWindow` contain no empty string, for all field
values, provided the target argument lists hold no empty string; the vector
of `killSession` contains an empty string exactly when the session name is
empty. -/
theorem builders_no_empty_value (ks : killSession) (ns : newSession) (nw : newWindow)
    (rw : renameWindow) (sw : splitWindow) (sel : selectWindow)
    (hnw : ∀ x ∈ nw.targetWindow, x ≠ "") (hrw : ∀ x ∈ rw.targetWindow, x ≠ "") :
    "" ∉ ns.String ∧ "" ∉ nw.String ∧ "" ∉ rw.String ∧ "" ∉ sw.String ∧ "" ∉ sel.String
    ∧ ("" ∈ ks.String ↔ ks.targetSession = "") := by
  have e : ∀ x : Str, x ∈ nw.targetWindow → ¬ "" = x := fun x hx h => hnw x hx h.symm
  have e2 : ∀ x : Str, x ∈ rw.targetWindow → ¬ "" = x := fun x hx h => hrw x hx h.symm
  refine ⟨?_, ?_, ?_, ?_, ?_, ?_⟩
  · simp only [newSession.String]
    split_ifs <;> simp [*] <;> tauto
  · simp only [newWindow.String, appendEach_guard]
    split_ifs <;> simp [*] <;> tauto
  · simp only [renameWindow.String, appendEach_guard]
    split_ifs <;> simp [*] <;> tauto
  · simp only [splitWindow.String]
    split_ifs <;> simp [*] <;> tauto
  · simp only [selectWindow.String]
    split_ifs with h
    · simpa [eq_comm] using h
    · simp
  · simp [killSession.String, eq_comm]

theorem builders_no_empty_value_witness :
    (∀ x ∈ (newWindow.mk ["-t", "s:1"] "" "").targetWindow, x ≠ "")
    ∧ (∀ x ∈ (renameWindow.mk ["-t", "s:1"] "").targetWindow, x ≠ "")
    ∧ "" ∉ (newSession.mk false "" "" "").String
    ∧ "" ∉ (newWindow.mk ["-t", "s:1"] "" "").String
    ∧ "" ∉ (renameWindow.mk ["-t", "s:1"] "").String
    ∧ "" ∉ (splitWindow.mk false false "" "").String
    ∧ "" ∉ (selectWindow.mk "").String
    ∧ ("" ∈ (killSession.mk "foo").String ↔ (killSession.mk "foo").targetSession = "") :=
  ⟨by decide, by decide,
   builders_no_empty_value (killSession.mk "foo") (newSession.mk false "" "" "")
     (newWindow.mk ["-t", "s:1"] "" "") (renameWindow.mk ["-t", "s:1"] "")
     (splitWindow.mk false false "" "") (selectWindow.mk "") (by decide) (by decide)⟩

/-! ## Windows of a session -/

theorem set_length_append {α : Type} (l : List α) (x y : α) :
    (l ++ [x]).set l.length y = l ++ [y] := by
  induction l with
  | nil => rfl
  | cons a l ih => simp [List.set, ih]

theorem getElem?_length_append {α : Type} (l : List α) (x : α) :
    (l ++ [x])[l.length]? = some x := by
  simp

/-- What `createWindow` does on a live session: the heap it leaves, and the
invocations it issues with the error it returns, in its three paths. -/
theorem createWindow_spec (run : Runner) (σ : State) (a : Nat) (sess : Session)
    (number : Int) (attr : WindowAttr) (hs : σ.heap.loadSession (some a) = some sess) :
    let nw := (newWindow.mk ["-t", sess.Name ++ ":" ++ Sprint number] attr.Name
      attr.Directory).String
    let rn := (renameWindow.mk ["-t", sess.Name ++ ":" ++ Sprint number] attr.Name).String
    let h := heapAfterCreate σ.heap number attr (some a)
    createWindow run number attr (some a) σ =
      if number = 0 then
        some ((some σ.heap.windows.length, (run σ.trace rn).err),
              { heap := h, trace := σ.trace ++ [rn] })
      else if (run σ.trace nw).err ≠ none then
        some ((some σ.heap.windows.length, (run σ.trace nw).err),
              { heap := h, trace := σ.trace ++ [nw] })
      else
        some ((some σ.heap.windows.length, (run (σ.trace ++ [nw]) rn).err),
              { heap := h, trace := σ.trace ++ [nw] ++ [rn] }) := by
  have hs2 : σ.heap.sessions[a]? = some sess := hs
  intro nw rn h
  by_cases h0 : number = 0
  · simp [createWindow, Window.AddPane, NewPane, Heap.loadWindow, Heap.storeWindow,
      Heap.loadSession, Window.getTargetWindow, tmux, set_length_append, hs2, h0, rn, h,
      heapAfterCreate]
  · by_cases he : (run σ.trace nw).err = none
    · simp [createWindow, Window.AddPane, NewPane, Heap.loadWindow, Heap.storeWindow,
        Heap.loadSession, Window.getTargetWindow, tmux, set_length_append, hs2, h0, rn, h,
        heapAfterCreate, nw, he]
    · have he2 : (run σ.trace nw).err ≠ none := he
      simp only [nw] at he2
      simp [createWindow, Window.AddPane, NewPane, Heap.loadWindow, Heap.storeWindow,
        Heap.loadSession, Window.getTargetWindow, tmux, set_length_append, hs2, h0, h,
        heapAfterCreate, nw, he2]

/-- What `AddWindowAttr` does on a live session, in the three paths of
`createWindow`. -/
theorem AddWindowAttr_spec (run : Runner) (σ : State) (a : Nat) (sess : Session)
    (attr : WindowAttr) (hs : σ.heap.loadSession (some a) = some sess) :
    let nw := (newWindow.mk ["-t", sess.Name ++ ":" ++ Sprint sess.NextWindowNumber] attr.Name
      attr.Directory).String
    let rn := (renameWindow.mk ["-t", sess.Name ++ ":" ++ Sprint sess.NextWindowNumber]
      attr.Name).String
    let h := heapAfterAdd σ.heap a sess attr
    Session.AddWindowAttr run (some a) attr σ =
      if sess.NextWindowNumber = 0 then
        some ((some σ.heap.windows.length, (run σ.trace rn).err),
              { heap := h, trace := σ.trace ++ [rn] })
      else if (run σ.trace nw).err ≠ none then
        some ((some σ.heap.windows.length, (run σ.trace nw).err),
              { heap := h, trace := σ.trace ++ [nw] })
      else
        some ((some σ.heap.windows.length, (run (σ.trace ++ [nw]) rn).err),
              { heap := h, trace := σ.trace ++ [nw] ++ [rn] }) := by
  have hs2 : σ.heap.sessions[a]? = some sess := hs
  have hlt : a < σ.heap.sessions.length := by
    rcases List.getElem?_eq_some.mp hs2 with ⟨h, _⟩
    exact h
  intro nw rn h
  have hc := createWindow_spec run σ a sess sess.NextWindowNumber attr hs
  dsimp only at hc
  by_cases h0 : sess.NextWindowNumber = 0
  · rw [if_pos h0] at hc
    rw [if_pos h0]
    simp [Session.AddWindowAttr, hc, Heap.loadSession, Heap.storeSession, heapAfterCreate,
      heapAfterAdd, hs2, hlt, h, rn]
  · rw [if_neg h0] at hc
    rw [if_neg h0]
    by_cases he : (run σ.trace nw).err ≠ none
    · rw [if_pos he] at hc
      rw [if_pos he]
      simp [Session.AddWindowAttr, hc, Heap.loadSession, Heap.storeSession, heapAfterCreate,
        heapAfterAdd, hs2, hlt, h, nw]
    · rw [if_neg he] at hc
      rw [if_neg he]
      simp [Session.AddWindowAttr, hc, Heap.loadSession, Heap.storeSession, heapAfterCreate,
        heapAfterAdd, hs2, hlt, h, nw, rn]

theorem addInt_one (k : Int) (hk : isInt k) (hmax : k ≠ maxInt) :
    addInt k 1 = k + 1 ∧ isInt (k + 1) := by
  unfold isInt minInt maxInt intBits at *
  unfold addInt wrapInt intBits
  norm_num at *
  omega

/-- C9 fails at the largest `int`: with `NextWindowNumber` = 2^63 - 1 the
window is created with that number, and the counter then holds -2^63, which
is neither the successor nor larger. -/
theorem AddWindowAttr_counter_wraps :
    (Session.AddWindowAttr okRunner (some 0) ⟨"w", ""⟩ lastNumberState).bind
        (fun r => (r.2.heap.loadSession (some 0)).map (fun x => x.NextWindowNumber))
      = some (-9223372036854775808)
    ∧ (lastNumberState.heap.loadSession (some 0)).map (fun x => x.NextWindowNumber)
      = some maxInt
    ∧ ¬ (maxInt < -9223372036854775808) := by
  decide

/-- C9, amended: on a live session whose counter `k` is an `int` other than
the largest one, for every attribute and every runner, `AddWindowAttr` returns
a new window with `Number = k` holding exactly one new pane numbered 0, leaves
`Windows` equal to the old list with that window appended last and sets
`NextWindowNumber` to `k + 1`, whatever the list held; the error returned is
the outcome of the last invocation issued, so the window is linked in also
when that invocation fails. -/
theorem AddWindowAttr_links_window (run : Runner) (σ : State) (a : Nat) (sess : Session)
    (attr : WindowAttr) (hs : σ.heap.loadSession (some a) = some sess)
    (hk : isInt sess.NextWindowNumber) (hmax : sess.NextWindowNumber ≠ maxInt) :
    (Session.AddWindowAttr run (some a) attr σ).map (fun r => (r.1.1, r.2.heap))
      = some (some σ.heap.windows.length,
          { panes := σ.heap.panes ++
              [{ Number := 0, commands := [], window := some σ.heap.windows.length }],
            windows := σ.heap.windows ++
              [{ Number := sess.NextWindowNumber, Name := attr.Name,
                 Directory := attr.Directory, Session := some a,
                 Panes := [some σ.heap.panes.length], SplitCommands := [] }],
            sessions := σ.heap.sessions.set a
              { sess with Windows := sess.Windows ++ [some σ.heap.windows.length],
                          NextWindowNumber := sess.NextWindowNumber + 1 } })
    ∧ (∃ r pre argv, Session.AddWindowAttr run (some a) attr σ = some r
        ∧ r.2.trace = σ.trace ++ pre ++ [argv]
        ∧ r.1.2 = (run (σ.trace ++ pre) argv).err)
    ∧ isInt (sess.NextWindowNumber + 1)
    ∧ sess.NextWindowNumber < sess.NextWindowNumber + 1 := by
  have hspec := AddWindowAttr_spec run σ a sess attr hs
  have hadd := addInt_one sess.NextWindowNumber hk hmax
  dsimp only at hspec
  refine ⟨?_, ?_, hadd.2, by omega⟩
  · rw [hspec]
    split_ifs <;> simp [heapAfterAdd, heapAfterCreate, hadd.1]
  · rw [hspec]
    split_ifs
    · exact ⟨_, [], _, rfl, by rw [List.append_nil], by rw [List.append_nil]⟩
    · exact ⟨_, [], _, rfl, by rw [List.append_nil], by rw [List.append_nil]⟩
    · exact ⟨_, [_], _, rfl, rfl, rfl⟩

theorem AddWindowAttr_links_window_witness :
    freshState.heap.loadSession (some 0)
        = some { Name := "s", Directory := "", Windows := [], directory := "",
                 NextWindowNumber := 0 }
    ∧ isInt 0 ∧ (0 : Int) ≠ maxInt
    ∧ (Session.AddWindowAttr failRunner (some 0) ⟨"w", ""⟩ freshState).map
          (fun r => (r.1.1, r.2.heap))
        = some (some 0,
            { panes := [{ Number := 0, commands := [], window := some 0 }],
              windows := [{ Number := 0, Name := "w", Directory := "", Session := some 0,
                            Panes := [some 0], SplitCommands := [] }],
              sessions := [{ Name := "s", Directory := "", Windows := [some 0],
                             directory := "", NextWindowNumber := 1 }] }) :=
  ⟨by decide, by decide, by decide,
   (AddWindowAttr_links_window failRunner freshState 0 _ ⟨"w", ""⟩ rfl (by decide)
      (by decide)).1.trans (by decide)⟩

/-- Two calls of `AddWindow` on a fresh session return windows numbered 0 and
1, also when every invocation fails. -/
theorem AddWindow_twice_fresh :
    ((Session.AddWindow failRunner (some 0) "a" freshState).bind fun r1 =>
      (Session.AddWindow failRunner (some 0) "b" r1.2).map fun r2 =>
        ((r2.2.heap.loadWindow r1.1.1).map (fun w => w.Number),
         (r2.2.heap.loadWindow r2.1.1).map (fun w => w.Number),
         (r2.2.heap.loadSession (some 0)).map (fun x => (x.Windows, x.NextWindowNumber))))
      = some (some (0 : Int), some (1 : Int), some ([some 0, some 1], (2 : Int))) := by
  rfl

/-- C10: on a live session `AddWindowAttr` issues a vector starting with
`new-window` iff the allocated number is not 0: for number 0 none of the
vectors it issues starts with `new-window`; for a number `n` other than 0 the
first vector it issues is `new-window -t s:n`, then `-n` and the name iff the
name is non-empty, then `-c` and the directory iff the attribute directory is
non-empty. -/
theorem AddWindowAttr_new_window (run : Runner) (σ : State) (a : Nat) (sess : Session)
    (attr : WindowAttr) (hs : σ.heap.loadSession (some a) = some sess) :
    ∃ r issued, Session.AddWindowAttr run (some a) attr σ = some r
      ∧ r.2.trace = σ.trace ++ issued
      ∧ (sess.NextWindowNumber = 0 → ∀ v ∈ issued, v.head? ≠ some "new-window")
      ∧ (sess.NextWindowNumber ≠ 0 →
          issued.head? = some (["new-window", "-t",
              sess.Name ++ ":" ++ Sprint sess.NextWindowNumber]
            ++ (if attr.Name ≠ "" then ["-n", attr.Name] else [])
            ++ (if attr.Directory ≠ "" then ["-c", attr.Directory] else [])))
      ∧ ((∃ v ∈ issued, v.head? = some "new-window") ↔ sess.NextWindowNumber ≠ 0) := by
  have hspec := AddWindowAttr_spec run σ a sess attr hs
  have hnw : ∀ t : Str, (newWindow.mk ["-t", t] attr.Name attr.Directory).String
      = ["new-window", "-t", t] ++ (if attr.Name ≠ "" then ["-n", attr.Name] else [])
        ++ (if attr.Directory ≠ "" then ["-c", attr.Directory] else []) := by
    intro t
    simp only [newWindow.String, appendEach_guard]
    split_ifs <;> simp
  have hrn : ∀ t : Str, (renameWindow.mk ["-t", t] attr.Name).String
      = ["rename-window", "-t", t] ++ (if attr.Name ≠ "" then [attr.Name] else []) := by
    intro t
    simp only [renameWindow.String, appendEach_guard]
    split_ifs <;> simp
  dsimp only at hspec
  rw [hspec]
  by_cases h0 : sess.NextWindowNumber = 0
  · rw [if_pos h0]
    refine ⟨_, _, rfl, rfl, ?_, fun h => absurd h0 h, ?_⟩
    · intro _ v hv
      simp only [List.mem_singleton] at hv
      subst hv
      rw [hrn]; simp
    · simp [hrn, h0]
  · rw [if_neg h0]
    by_cases he : (run σ.trace (newWindow.mk
        ["-t", sess.Name ++ ":" ++ Sprint sess.NextWindowNumber] attr.Name
        attr.Directory).String).err ≠ none
    · rw [if_pos he]
      refine ⟨_, _, rfl, rfl, fun h => absurd h h0, fun _ => ?_, ?_⟩
      · simp only [List.head?_cons, hnw]
      · simp [hnw, h0]
    · rw [if_neg he]
      refine ⟨_, [_, _], rfl, List.append_assoc _ _ _, fun h => absurd h h0, fun _ => ?_, ?_⟩
      · simp only [List.head?_cons, hnw]
      · simp [hnw, h0]

theorem AddWindowAttr_new_window_witness :
    (exampleState.heap.loadSession (some 0)).map (fun x => (x.Name, x.NextWindowNumber))
        = some ("s", 3)
    ∧ ∃ r issued, Session.AddWindowAttr okRunner (some 0) ⟨"w", "/tmp"⟩ exampleState = some r
        ∧ r.2.trace = exampleState.trace ++ issued
        ∧ issued.head? = some ["new-window", "-t", "s:3", "-n", "w", "-c", "/tmp"] := by
  obtain ⟨r, issued, h1, h2, _, h4, _⟩ :=
    AddWindowAttr_new_window okRunner exampleState 0 _ ⟨"w", "/tmp"⟩ rfl
  exact ⟨by decide, r, issued, h1, h2, (h4 (by decide)).trans (by decide)⟩

theorem newWindow_String_target (t name dir : Str) :
    (newWindow.mk ["-t", t] name dir).String
      = ["new-window", "-t", t] ++ (if name ≠ "" then ["-n", name] else [])
        ++ (if dir ≠ "" then ["-c", dir] else []) := by
  simp only [newWindow.String, appendEach_guard]
  split_ifs <;> simp

theorem renameWindow_String_target (t name : Str) :
    (renameWindow.mk ["-t", t] name).String
      = ["rename-window", "-t", t] ++ (if name ≠ "" then [name] else []) := by
  simp only [renameWindow.String, appendEach_guard]
  split_ifs <;> simp

/-- C11 fails when `new-window` fails: for window 3 of session `s` under a
runner whose invocations all exit non-zero, the only vector issued is the
`new-window` one and its error is returned; no `rename-window` follows. -/
theorem AddWindowAttr_skips_rename :
    (Session.AddWindowAttr failRunner (some 0) ⟨"w", "/tmp"⟩ exampleState).map
        (fun r => (r.1.2, r.2.trace))
      = some (some (Error.exitError "exit status 1"),
              [["new-window", "-t", "s:3", "-n", "w", "-c", "/tmp"]]) := by
  decide

/-- C11, amended: on a live session `AddWindowAttr` issues `rename-window`
addressed at the new window's target, followed by the name iff it is
non-empty, as the last invocation of the call whenever the allocated number
is 0 or the `new-window` invocation succeeded; when the number is not 0 and
`new-window` fails, that vector is the only one issued and its error is
returned. -/
theorem AddWindowAttr_rename_window (run : Runner) (σ : State) (a : Nat) (sess : Session)
    (attr : WindowAttr) (hs : σ.heap.loadSession (some a) = some sess) :
    ∃ r issued, Session.AddWindowAttr run (some a) attr σ = some r
      ∧ r.2.trace = σ.trace ++ issued
      ∧ ((sess.NextWindowNumber = 0
            ∨ (run σ.trace (["new-window", "-t",
                  sess.Name ++ ":" ++ Sprint sess.NextWindowNumber]
                ++ (if attr.Name ≠ "" then ["-n", attr.Name] else [])
                ++ (if attr.Directory ≠ "" then ["-c", attr.Directory] else []))).err = none) →
          issued.getLast? = some (["rename-window", "-t",
              sess.Name ++ ":" ++ Sprint sess.NextWindowNumber]
            ++ (if attr.Name ≠ "" then [attr.Name] else [])))
      ∧ (sess.NextWindowNumber ≠ 0 →
          (run σ.trace (["new-window", "-t",
                  sess.Name ++ ":" ++ Sprint sess.NextWindowNumber]
                ++ (if attr.Name ≠ "" then ["-n", attr.Name] else [])
                ++ (if attr.Directory ≠ "" then ["-c", attr.Directory] else []))).err ≠ none →
          issued = [["new-window", "-t", sess.Name ++ ":" ++ Sprint sess.NextWindowNumber]
                ++ (if attr.Name ≠ "" then ["-n", attr.Name] else [])
                ++ (if attr.Directory ≠ "" then ["-c", attr.Directory] else [])]
          ∧ r.1.2 = (run σ.trace (["new-window", "-t",
                  sess.Name ++ ":" ++ Sprint sess.NextWindowNumber]
                ++ (if attr.Name ≠ "" then ["-n", attr.Name] else [])
                ++ (if attr.Directory ≠ "" then ["-c", attr.Directory] else []))).err) := by
  have hspec := AddWindowAttr_spec run σ a sess attr hs
  dsimp only at hspec
  rw [newWindow_String_target, renameWindow_String_target] at hspec
  rw [hspec]
  by_cases h0 : sess.NextWindowNumber = 0
  · rw [if_pos h0]
    exact ⟨_, _, rfl, rfl, fun _ => rfl, fun h => absurd h0 h⟩
  · rw [if_neg h0]
    by_cases he : (run σ.trace (["new-window", "-t",
                  sess.Name ++ ":" ++ Sprint sess.NextWindowNumber]
                ++ (if attr.Name ≠ "" then ["-n", attr.Name] else [])
                ++ (if attr.Directory ≠ "" then ["-c", attr.Directory] else []))).err ≠ none
    · rw [if_pos he]
      refine ⟨_, _, rfl, rfl, fun h => ?_, fun _ _ => ⟨rfl, rfl⟩⟩
      rcases h with h | h
      · exact absurd h h0
      · exact absurd h he
    · rw [if_neg he]
      refine ⟨_, [_, _], rfl, List.append_assoc _ _ _, fun _ => rfl, fun _ h => absurd h he⟩

theorem AddWindowAttr_rename_window_witness :
    (exampleState.heap.loadSession (some 0)).map (fun x => (x.Name, x.NextWindowNumber))
        = some ("s", 3)
    ∧ ∃ r issued, Session.AddWindowAttr okRunner (some 0) ⟨"w", "/tmp"⟩ exampleState = some r
        ∧ r.2.trace = exampleState.trace ++ issued
        ∧ issued.getLast? = some ["rename-window", "-t", "s:3", "w"] := by
  obtain ⟨r, issued, h1, h2, h3, _⟩ :=
    AddWindowAttr_rename_window okRunner exampleState 0 _ ⟨"w", "/tmp"⟩ rfl
  exact ⟨by decide, r, issued, h1, h2, (h3 (Or.inr rfl)).trans (by decide)⟩

/-! ## Splits -/

theorem targetName_ne_empty (a b c : Str) : a ++ ":" ++ b ++ "." ++ c ≠ "" := by
  intro h
  have := congrArg String.length h
  simp only [String.length_append] at this
  have hc : ":".length = 1 := by decide
  have h0 : "".length = 0 := by decide
  omega

theorem splitWindow_String_target (h v : Bool) (t c : Str) (ht : t ≠ "") :
    (splitWindow.mk h v t c).String
      = ["split-window"] ++ (if h = true then ["-h"] else [])
          ++ (if v = true then ["-v"] else []) ++ ["-t", t]
          ++ (if c ≠ "" then ["-c", c] else []) := by
  simp only [splitWindow.String]
  split_ifs <;> simp

theorem AddPane_spec (h : Heap) (tr : List (List Str)) (wa : Nat) (w : Window) (n : Int)
    (hw : h.windows[wa]? = some w) :
    Window.AddPane (some wa) n { heap := h, trace := tr }
      = some (some h.panes.length, { heap := heapAfterSplit h wa w n, trace := tr }) := by
  have hlt : wa < h.windows.length := by
    rcases List.getElem?_eq_some.mp hw with ⟨h, _⟩
    exact h
  simp [Window.AddPane, NewPane, Heap.loadWindow, Heap.storeWindow, heapAfterSplit, hw, hlt]

theorem getTargetName_live (h : Heap) (p : Ptr) (pane : Pane) (wa : Nat) (w : Window)
    (sess : Session) (hp : h.loadPane p = some pane) (hwa : pane.window = some wa)
    (hw : h.windows[wa]? = some w) (hs : h.loadSession w.Session = some sess) :
    Pane.getTargetName p h
      = some (sess.Name ++ ":" ++ Sprint w.Number ++ "." ++ Sprint pane.Number) := by
  simp [Pane.getTargetName, hp, hwa, Heap.loadWindow, hw, hs]

/-- What `SplitWAttr` does on a live pane. -/
theorem SplitWAttr_spec (run : Runner) (σ : State) (p : Ptr) (attr : SplitAttr) (pane : Pane)
    (wa : Nat) (w : Window) (sess : Session) (hp : σ.heap.loadPane p = some pane)
    (hwa : pane.window = some wa) (hw : σ.heap.windows[wa]? = some w)
    (hs : σ.heap.loadSession w.Session = some sess) :
    Pane.SplitWAttr run p attr σ
      = some ((some σ.heap.panes.length,
               (run σ.trace (splitWindow.mk false true
                  (sess.Name ++ ":" ++ Sprint w.Number ++ "." ++ Sprint pane.Number)
                  (resolvedDir attr w sess)).String).err),
              { heap := heapAfterSplit σ.heap wa w (addInt pane.Number 1),
                trace := σ.trace ++ [(splitWindow.mk false true
                  (sess.Name ++ ":" ++ Sprint w.Number ++ "." ++ Sprint pane.Number)
                  (resolvedDir attr w sess)).String] }) := by
  have ht := getTargetName_live σ.heap p pane wa w sess hp hwa hw hs
  have hw2 : σ.heap.loadWindow (some wa) = some w := hw
  by_cases h1 : attr.Directory = "" <;> by_cases h2 : w.Directory = "" <;>
    by_cases h3 : sess.Directory = "" <;>
    simp [Pane.SplitWAttr, resolvedDir, hp, hwa, hw2, hs, ht, tmux, h1, h2, h3,
      AddPane_spec _ _ wa w _ hw]

/-- What `VsplitWAttr` does on a live pane. -/
theorem VsplitWAttr_spec (run : Runner) (σ : State) (p : Ptr) (attr : SplitAttr) (pane : Pane)
    (wa : Nat) (w : Window) (sess : Session) (hp : σ.heap.loadPane p = some pane)
    (hwa : pane.window = some wa) (hw : σ.heap.windows[wa]? = some w)
    (hs : σ.heap.loadSession w.Session = some sess) :
    Pane.VsplitWAttr run p attr σ
      = some ((some σ.heap.panes.length,
               (run σ.trace (splitWindow.mk true false
                  (sess.Name ++ ":" ++ Sprint w.Number ++ "." ++ Sprint pane.Number)
                  (resolvedDir attr w sess)).String).err),
              { heap := heapAfterSplit σ.heap wa w (addInt pane.Number 1),
                trace := σ.trace ++ [(splitWindow.mk true false
                  (sess.Name ++ ":" ++ Sprint w.Number ++ "." ++ Sprint pane.Number)
                  (resolvedDir attr w sess)).String] }) := by
  have ht := getTargetName_live σ.heap p pane wa w sess hp hwa hw hs
  have hw2 : σ.heap.loadWindow (some wa) = some w := hw
  by_cases h1 : attr.Directory = "" <;> by_cases h2 : w.Directory = "" <;>
    by_cases h3 : sess.Directory = "" <;>
    simp [Pane.VsplitWAttr, resolvedDir, hp, hwa, hw2, hs, ht, tmux, h1, h2, h3,
      AddPane_spec _ _ wa w _ hw]

/-- What `Split` does on a live pane. -/
theorem Split_spec (run : Runner) (σ : State) (p : Ptr) (pane : Pane)
    (wa : Nat) (w : Window) (sess : Session) (hp : σ.heap.loadPane p = some pane)
    (hwa : pane.window = some wa) (hw : σ.heap.windows[wa]? = some w)
    (hs : σ.heap.loadSession w.Session = some sess) :
    Pane.Split run p σ
      = some ((some σ.heap.panes.length,
               (run σ.trace (splitWindow.mk false true
                  (sess.Name ++ ":" ++ Sprint w.Number ++ "." ++ Sprint pane.Number)
                  "").String).err),
              { heap := heapAfterSplit σ.heap wa w (addInt pane.Number 1),
                trace := σ.trace ++ [(splitWindow.mk false true
                  (sess.Name ++ ":" ++ Sprint w.Number ++ "." ++ Sprint pane.Number)
                  "").String] }) := by
  have ht := getTargetName_live σ.heap p pane wa w sess hp hwa hw hs
  simp [Pane.Split, hp, hwa, ht, tmux, AddPane_spec _ _ wa w _ hw]

/-- What `Vsplit` does on a live pane. -/
theorem Vsplit_spec (run : Runner) (σ : State) (p : Ptr) (pane : Pane)
    (wa : Nat) (w : Window) (sess : Session) (hp : σ.heap.loadPane p = some pane)
    (hwa : pane.window = some wa) (hw : σ.heap.windows[wa]? = some w)
    (hs : σ.heap.loadSession w.Session = some sess) :
    Pane.Vsplit run p σ
      = some (some σ.heap.panes.length,
              { heap := heapAfterSplit σ.heap wa w (addInt pane.Number 1),
                trace := σ.trace ++ [(splitWindow.mk true false
                  (sess.Name ++ ":" ++ Sprint w.Number ++ "." ++ Sprint pane.Number)
                  "").String] }) := by
  have ht := getTargetName_live σ.heap p pane wa w sess hp hwa hw hs
  simp [Pane.Vsplit, hp, hwa, ht, tmux, AddPane_spec _ _ wa w _ hw]

/-- C12 fails at the largest `int`: a split on a pane numbered 2^63 - 1 appends
a pane numbered -2^63, not the successor. -/
theorem Split_number_wraps :
    (lastPaneState.heap.loadPane (some 0)).map (fun x => x.Number) = some maxInt
    ∧ (Pane.Split okRunner (some 0) lastPaneState).bind
        (fun r => (r.2.heap.loadPane r.1.1).map (fun x => x.Number))
      = some (-9223372036854775808)
    ∧ ¬ (-9223372036854775808 = maxInt + 1) := by
  decide

/-- C12, amended: for a live pane `p` of window `w` whose number is an `int`
other than the largest one, each of `Split`, `SplitWAttr`, `Vsplit` and
`VsplitWAttr`, under every runner, returns a newly allocated pane, appends it
as the last element of `w.Panes`, gives it `Number = p.Number + 1` and the
back-reference `w`, and leaves every other pane, window and session as it
was. -/
theorem split_appends_pane (run : Runner) (σ : State) (p : Ptr) (attr : SplitAttr)
    (pane : Pane) (wa : Nat) (w : Window) (sess : Session)
    (hp : σ.heap.loadPane p = some pane) (hwa : pane.window = some wa)
    (hw : σ.heap.windows[wa]? = some w) (hs : σ.heap.loadSession w.Session = some sess)
    (hk : isInt pane.Number) (hmax : pane.Number ≠ maxInt) :
    (Pane.Split run p σ).map (fun r => (r.1.1, r.2.heap))
      = some (some σ.heap.panes.length,
          { panes := σ.heap.panes ++
              [{ Number := pane.Number + 1, commands := [], window := some wa }],
            windows := σ.heap.windows.set wa
              { w with Panes := w.Panes ++ [some σ.heap.panes.length] },
            sessions := σ.heap.sessions })
    ∧ (Pane.SplitWAttr run p attr σ).map (fun r => (r.1.1, r.2.heap))
      = (Pane.Split run p σ).map (fun r => (r.1.1, r.2.heap))
    ∧ (Pane.Vsplit run p σ).map (fun r => (r.1, r.2.heap))
      = (Pane.Split run p σ).map (fun r => (r.1.1, r.2.heap))
    ∧ (Pane.VsplitWAttr run p attr σ).map (fun r => (r.1.1, r.2.heap))
      = (Pane.Split run p σ).map (fun r => (r.1.1, r.2.heap)) := by
  have hadd := (addInt_one pane.Number hk hmax).1
  rw [Split_spec run σ p pane wa w sess hp hwa hw hs,
    SplitWAttr_spec run σ p attr pane wa w sess hp hwa hw hs,
    Vsplit_spec run σ p pane wa w sess hp hwa hw hs,
    VsplitWAttr_spec run σ p attr pane wa w sess hp hwa hw hs]
  simp [heapAfterSplit, hadd]

theorem split_appends_pane_witness :
    dirState.heap.loadPane (some 0) = some { Number := 0, commands := [], window := some 0 }
    ∧ (dirState.heap.loadWindow (some 0)).map (fun w => (w.Panes, w.Session))
        = some ([some 0], some 0)
    ∧ (dirState.heap.loadSession (some 0)).map (fun x => x.Name) = some "s"
    ∧ isInt 0 ∧ (0 : Int) ≠ maxInt
    ∧ (Pane.Split failRunner (some 0) dirState).map (fun r => (r.1.1, r.2.heap))
        = some (some 1,
            { panes := [{ Number := 0, commands := [], window := some 0 },
                        { Number := 1, commands := [], window := some 0 }],
              windows := [{ Number := 0, Name := "a", Directory := "/w", Session := some 0,
                            Panes := [some 0, some 1], SplitCommands := [] }],
              sessions := dirState.heap.sessions }) :=
  ⟨by decide, by decide, by decide, by decide, by decide,
   (split_appends_pane failRunner dirState (some 0) ⟨""⟩ _ 0 _ _ rfl rfl rfl rfl
      (by decide) (by decide)).1.trans (by decide)⟩

/-- C13: on a live pane whose target string is `t`, `SplitWAttr` issues
exactly `split-window -v -t t` and `VsplitWAttr` exactly
`split-window -h -t t`, each followed by `-c d` iff `d` is non-empty, where
`d` is the attribute's directory if non-empty, else the owning window's if
non-empty, else the owning session's; `d` is empty exactly when all three
are. -/
theorem splitWAttr_vectors (run : Runner) (σ : State) (p : Ptr) (attr : SplitAttr)
    (pane : Pane) (wa : Nat) (w : Window) (sess : Session)
    (hp : σ.heap.loadPane p = some pane) (hwa : pane.window = some wa)
    (hw : σ.heap.windows[wa]? = some w) (hs : σ.heap.loadSession w.Session = some sess) :
    Pane.getTargetName p σ.heap
      = some (sess.Name ++ ":" ++ Sprint w.Number ++ "." ++ Sprint pane.Number)
    ∧ (Pane.SplitWAttr run p attr σ).map (fun r => r.2.trace)
      = some (σ.trace ++ [["split-window", "-v", "-t",
            sess.Name ++ ":" ++ Sprint w.Number ++ "." ++ Sprint pane.Number]
          ++ (if (if attr.Directory ≠ "" then attr.Directory
                  else if w.Directory ≠ "" then w.Directory else sess.Directory) ≠ ""
              then ["-c", if attr.Directory ≠ "" then attr.Directory
                          else if w.Directory ≠ "" then w.Directory else sess.Directory]
              else [])])
    ∧ (Pane.VsplitWAttr run p attr σ).map (fun r => r.2.trace)
      = some (σ.trace ++ [["split-window", "-h", "-t",
            sess.Name ++ ":" ++ Sprint w.Number ++ "." ++ Sprint pane.Number]
          ++ (if (if attr.Directory ≠ "" then attr.Directory
                  else if w.Directory ≠ "" then w.Directory else sess.Directory) ≠ ""
              then ["-c", if attr.Directory ≠ "" then attr.Directory
                          else if w.Directory ≠ "" then w.Directory else sess.Directory]
              else [])])
    ∧ ((if attr.Directory ≠ "" then attr.Directory
        else if w.Directory ≠ "" then w.Directory else sess.Directory) = ""
        ↔ attr.Directory = "" ∧ w.Directory = "" ∧ sess.Directory = "") := by
  have ht := targetName_ne_empty sess.Name (Sprint w.Number) (Sprint pane.Number)
  refine ⟨getTargetName_live σ.heap p pane wa w sess hp hwa hw hs, ?_, ?_, ?_⟩
  · rw [SplitWAttr_spec run σ p attr pane wa w sess hp hwa hw hs,
      splitWindow_String_target _ _ _ _ ht]
    simp [resolvedDir]
  · rw [VsplitWAttr_spec run σ p attr pane wa w sess hp hwa hw hs,
      splitWindow_String_target _ _ _ _ ht]
    simp [resolvedDir]
  · by_cases h1 : attr.Directory = "" <;> by_cases h2 : w.Directory = "" <;> simp [h1, h2]

theorem splitWAttr_vectors_witness :
    dirState.heap.loadPane (some 0) = some { Number := 0, commands := [], window := some 0 }
    ∧ (dirState.heap.loadWindow (some 0)).map (fun w => (w.Directory, w.Session))
        = some ("/w", some 0)
    ∧ (dirState.heap.loadSession (some 0)).map (fun x => (x.Name, x.Directory))
        = some ("s", "/s")
    ∧ (Pane.SplitWAttr okRunner (some 0) ⟨""⟩ dirState).map (fun r => r.2.trace)
        = some [["split-window", "-v", "-t", "s:0.0", "-c", "/w"]]
    ∧ (Pane.VsplitWAttr okRunner (some 0) ⟨"/a"⟩ dirState).map (fun r => r.2.trace)
        = some [["split-window", "-h", "-t", "s:0.0", "-c", "/a"]] :=
  ⟨by decide, by decide, by decide,
   (splitWAttr_vectors okRunner dirState (some 0) ⟨""⟩ _ 0 _ _ rfl rfl rfl rfl).2.1.trans
     (by decide),
   (splitWAttr_vectors okRunner dirState (some 0) ⟨"/a"⟩ _ 0 _ _ rfl rfl rfl rfl).2.2.1.trans
     (by decide)⟩

/-- C14 at a window with directory `/w` in a session with directory `/s`:
`SplitWAttr` and `VsplitWAttr` with an empty attribute carry `-c /w`, while
`Split` and `Vsplit` issue the vector without any `-c`; the heaps the plain
and the attribute-carrying operations leave are the same. -/
theorem plain_split_drops_directory :
    (Pane.SplitWAttr okRunner (some 0) ⟨""⟩ dirState).map (fun r => r.2.trace)
      = some [["split-window", "-v", "-t", "s:0.0", "-c", "/w"]]
    ∧ (Pane.Split okRunner (some 0) dirState).map (fun r => r.2.trace)
      = some [["split-window", "-v", "-t", "s:0.0"]]
    ∧ (Pane.VsplitWAttr okRunner (some 0) ⟨""⟩ dirState).map (fun r => r.2.trace)
      = some [["split-window", "-h", "-t", "s:0.0", "-c", "/w"]]
    ∧ (Pane.Vsplit okRunner (some 0) dirState).map (fun r => r.2.trace)
      = some [["split-window", "-h", "-t", "s:0.0"]]
    ∧ (Pane.Split okRunner (some 0) dirState).map (fun r => r.2.heap)
      = (Pane.SplitWAttr okRunner (some 0) ⟨""⟩ dirState).map (fun r => r.2.heap)
    ∧ (Pane.Vsplit okRunner (some 0) dirState).map (fun r => r.2.heap)
      = (Pane.VsplitWAttr okRunner (some 0) ⟨""⟩ dirState).map (fun r => r.2.heap) := by
  decide

/-! ## Sessions -/

/-- C15: `CheckSessionExists` issues the one listing invocation and decides
from its result alone: when the listing succeeds it returns `(true, nil)` iff
the name occurs as a substring of the output and `(false, nil)` otherwise;
when it fails with a non-zero exit and the output contains
`no server running` or `no such file or directory` it returns `(false, nil)`;
for every other failure it returns `false` with that failure. -/
theorem CheckSessionExists_result (run : Runner) (name : Str) (σ : State) :
    (CheckSessionExists run name σ).2
      = { heap := σ.heap, trace := σ.trace ++ [["ls", "-F", "'#\x7bsession_name\x7d'"]] }
    ∧ ((run σ.trace ["ls", "-F", "'#\x7bsession_name\x7d'"]).err = none →
        (CheckSessionExists run name σ).1
          = (decide (name.data <:+:
              (run σ.trace ["ls", "-F", "'#\x7bsession_name\x7d'"]).output.data), none))
    ∧ (∀ m, (run σ.trace ["ls", "-F", "'#\x7bsession_name\x7d'"]).err
          = some (Error.exitError m) →
        ("no server running".data <:+:
            (run σ.trace ["ls", "-F", "'#\x7bsession_name\x7d'"]).output.data
          ∨ "no such file or directory".data <:+:
            (run σ.trace ["ls", "-F", "'#\x7bsession_name\x7d'"]).output.data) →
        (CheckSessionExists run name σ).1 = (false, none))
    ∧ (∀ m, (run σ.trace ["ls", "-F", "'#\x7bsession_name\x7d'"]).err
          = some (Error.exitError m) →
        ¬ ("no server running".data <:+:
            (run σ.trace ["ls", "-F", "'#\x7bsession_name\x7d'"]).output.data
          ∨ "no such file or directory".data <:+:
            (run σ.trace ["ls", "-F", "'#\x7bsession_name\x7d'"]).output.data) →
        (CheckSessionExists run name σ).1 = (false, some (Error.exitError m)))
    ∧ (∀ m, (run σ.trace ["ls", "-F", "'#\x7bsession_name\x7d'"]).err
          = some (Error.other m) →
        (CheckSessionExists run name σ).1 = (false, some (Error.other m)))
    ∧ (CheckSessionExists listsX "x" freshState).1 = (true, none)
    ∧ (CheckSessionExists listsX "y" freshState).1 = (false, none)
    ∧ (CheckSessionExists noServer "x" freshState).1 = (false, none)
    ∧ (CheckSessionExists failRunner "x" freshState).1
        = (false, some (Error.exitError "exit status 1")) := by
  refine ⟨?_, ?_, ?_, ?_, ?_, by decide, by decide, by decide, by decide⟩
  · simp only [CheckSessionExists, tmux]
    generalize run σ.trace ["ls", "-F", "'#\x7bsession_name\x7d'"] = out
    rcases out with ⟨o, _ | e⟩
    · dsimp only
      split_ifs <;> rfl
    · cases e <;> dsimp only
      split_ifs <;> rfl
  · intro h
    simp only [CheckSessionExists, tmux, h, strings.Contains]
    split_ifs with hc <;> simp [hc]
  · intro m h hc
    simp only [CheckSessionExists, tmux, h, strings.Contains]
    rw [if_pos (by simpa using hc)]
  · intro m h hc
    simp only [CheckSessionExists, tmux, h, strings.Contains]
    rw [if_neg (by simpa using hc)]
  · intro m h
    simp only [CheckSessionExists, tmux, h]

theorem CheckSessionExists_state (run : Runner) (name : Str) (σ : State) :
    (CheckSessionExists run name σ).2
      = { heap := σ.heap, trace := σ.trace ++ [["ls", "-F", "'#\x7bsession_name\x7d'"]] } := by
  simp only [CheckSessionExists, tmux]
  generalize run σ.trace ["ls", "-F", "'#\x7bsession_name\x7d'"] = out
  rcases out with ⟨o, _ | e⟩
  · dsimp only
    split_ifs <;> rfl
  · cases e <;> dsimp only
    split_ifs <;> rfl

/-- C16: `KillSession` runs the existence check first.  When the check
reports `(false, nil)` it returns nil and issues nothing more; when the check
reports a failure it returns that failure and issues nothing more; when the
check reports `true` it issues exactly `kill-session -t name` and returns the
outcome of that invocation.  The heap is never touched. -/
theorem KillSession_result (run : Runner) (name : Str) (σ : State) :
    ((CheckSessionExists run name σ).1 = (false, none) →
        KillSession run name σ = (none, (CheckSessionExists run name σ).2))
    ∧ (∀ e, (CheckSessionExists run name σ).1 = (false, some e) →
        KillSession run name σ = (some e, (CheckSessionExists run name σ).2))
    ∧ ((CheckSessionExists run name σ).1.1 = true →
        KillSession run name σ
          = ((run (CheckSessionExists run name σ).2.trace ["kill-session", "-t", name]).err,
             { heap := σ.heap,
               trace := (CheckSessionExists run name σ).2.trace
                 ++ [["kill-session", "-t", name]] }))
    ∧ (CheckSessionExists run name σ).2
        = { heap := σ.heap, trace := σ.trace ++ [["ls", "-F", "'#\x7bsession_name\x7d'"]] }
    ∧ KillSession noServer "x" freshState
        = (none, { heap := freshState.heap,
                   trace := [["ls", "-F", "'#\x7bsession_name\x7d'"]] })
    ∧ KillSession notFound "x" freshState
        = (some (Error.other "executable file not found in $PATH"),
           { heap := freshState.heap, trace := [["ls", "-F", "'#\x7bsession_name\x7d'"]] })
    ∧ KillSession listsX "x" freshState
        = (none, { heap := freshState.heap,
                   trace := [["ls", "-F", "'#\x7bsession_name\x7d'"],
                             ["kill-session", "-t", "x"]] }) := by
  have hst := CheckSessionExists_state run name σ
  refine ⟨?_, ?_, ?_, hst, by decide, by decide, by decide⟩
  · intro h
    unfold KillSession
    rcases hc : CheckSessionExists run name σ with ⟨⟨b, e⟩, σ1⟩
    rw [hc] at h
    cases h
    simp
  · intro e h
    unfold KillSession
    rcases hc : CheckSessionExists run name σ with ⟨⟨b, e1⟩, σ1⟩
    rw [hc] at h
    cases h
    simp
  · intro h
    have hheap : (CheckSessionExists run name σ).2.heap = σ.heap := by rw [hst]
    unfold KillSession
    rcases hc : CheckSessionExists run name σ with ⟨⟨b, e1⟩, σ1⟩
    rw [hc] at h hheap
    dsimp only at h hheap
    subst h
    simp [tmux, killSession.String, hheap]

theorem KillSession_heap (run : Runner) (name : Str) (σ : State) :
    (KillSession run name σ).2.heap = σ.heap := by
  have hst := CheckSessionExists_state run name σ
  unfold KillSession
  rcases hc : CheckSessionExists run name σ with ⟨⟨b, e⟩, σ1⟩
  rw [hc] at hst
  dsimp only at hst
  subst hst
  cases b
  · dsimp only
    split_ifs <;> rfl
  · rfl

/-- C17: for a non-empty name, `NewSession` first performs
`KillSession(name)`; if that returns an error, `NewSession` returns a nil
session with that error and issues nothing more; otherwise it issues exactly
`new-session -d -s name -n tmp` and returns, with the outcome of that
invocation, a newly allocated session with `Name = name`, no windows and
`NextWindowNumber = 0`. -/
theorem NewSession_result (run : Runner) (name : Str) (σ : State) (hname : name ≠ "") :
    ((KillSession run name σ).1 ≠ none →
        NewSession run name σ = ((none, (KillSession run name σ).1), (KillSession run name σ).2))
    ∧ ((KillSession run name σ).1 = none →
        NewSession run name σ
          = ((some σ.heap.sessions.length,
              (run (KillSession run name σ).2.trace
                ["new-session", "-d", "-s", name, "-n", "tmp"]).err),
             { heap := { panes := σ.heap.panes, windows := σ.heap.windows,
                         sessions := σ.heap.sessions ++
                           [{ Name := name, Directory := "", Windows := [], directory := "",
                              NextWindowNumber := 0 }] },
               trace := (KillSession run name σ).2.trace
                 ++ [["new-session", "-d", "-s", name, "-n", "tmp"]] })) := by
  have hheap := KillSession_heap run name σ
  constructor
  · intro h
    simp [NewSession, h]
  · intro h
    simp [NewSession, h, NewSessionAttr, tmux, newSession.String, hname, hheap]

theorem NewSession_result_witness :
    ("x" : Str) ≠ ""
    ∧ (KillSession listsX "x" freshState).1 = none
    ∧ NewSession listsX "x" freshState
        = ((some 1, none),
           { heap := { panes := [], windows := [],
                       sessions := freshState.heap.sessions ++
                         [{ Name := "x", Directory := "", Windows := [], directory := "",
                            NextWindowNumber := 0 }] },
             trace := [["ls", "-F", "'#\x7bsession_name\x7d'"], ["kill-session", "-t", "x"],
                       ["new-session", "-d", "-s", "x", "-n", "tmp"]] })
    ∧ NewSession notFound "x" freshState
        = ((none, some (Error.other "executable file not found in $PATH")),
           { heap := freshState.heap, trace := [["ls", "-F", "'#\x7bsession_name\x7d'"]] }) :=
  ⟨by decide, by decide,
   ((NewSession_result listsX "x" freshState (by decide)).2 (by decide)).trans (by decide),
   ((NewSession_result notFound "x" freshState (by decide)).1 (by decide)).trans (by decide)⟩

/-- C18 at a session name that tmux lists as live: `NewSessionAttr` issues the
`new-session` vector alone; it runs no existence check and no `kill-session`,
while `NewSession` on the same input issues the listing, the kill and then
`new-session`. -/
theorem NewSessionAttr_does_not_kill :
    (CheckSessionExists listsX "x" freshState).1 = (true, none)
    ∧ (NewSessionAttr listsX ⟨"x", ""⟩ freshState).2.trace
        = [["new-session", "-d", "-s", "x", "-n", "tmp"]]
    ∧ (NewSession listsX "x" freshState).2.trace
        = [["ls", "-F", "'#\x7bsession_name\x7d'"], ["kill-session", "-t", "x"],
           ["new-session", "-d", "-s", "x", "-n", "tmp"]] := by
  decide

/-! ## Pane numbering -/

/-- C19 at pane 1 of window 2 of session `s`, whose target is `s:2.1`:
`KillPane(3)` issues `kill-pane -t 3` and `SetName` issues
`select-pane -t 1 -T x`, the bare numbers, while `Exec` on the same pane
addresses it as `s:2.1`. -/
theorem KillPane_SetName_bare_number :
    (Window.KillPane okRunner (some 2) 3 exampleState).2.trace = [["kill-pane", "-t", "3"]]
    ∧ (Pane.SetName okRunner (some 1) "x" exampleState).map (fun r => r.2.trace)
      = some [["select-pane", "-t", "1", "-T", "x"]]
    ∧ Sprint 3 = "3" ∧ Sprint 1 = "1"
    ∧ Pane.getTargetName (some 1) exampleHeap = some "s:2.1"
    ∧ (Pane.Exec okRunner (some 1) "ls" exampleState).map (fun r => r.2.trace)
      = some [["send-keys", "-t", "s:2.1", "ls", "C-m"]] := by
  decide

theorem SplitOp_apply_spec (run : Runner) (op : SplitOp) (σ : State) (p : Ptr) (pane : Pane)
    (wa : Nat) (w : Window) (sess : Session) (hp : σ.heap.loadPane p = some pane)
    (hwa : pane.window = some wa) (hw : σ.heap.windows[wa]? = some w)
    (hs : σ.heap.loadSession w.Session = some sess) :
    ∃ tr, op.apply run p σ
      = some (some σ.heap.panes.length,
              { heap := heapAfterSplit σ.heap wa w (addInt pane.Number 1), trace := tr }) := by
  cases op with
  | split =>
    exact ⟨_, by rw [SplitOp.apply, Split_spec run σ p pane wa w sess hp hwa hw hs]; rfl⟩
  | splitWAttr attr =>
    exact ⟨_, by rw [SplitOp.apply, SplitWAttr_spec run σ p attr pane wa w sess hp hwa hw hs]; rfl⟩
  | vsplit =>
    exact ⟨_, by rw [SplitOp.apply, Vsplit_spec run σ p pane wa w sess hp hwa hw hs]⟩
  | vsplitWAttr attr =>
    exact ⟨_, by rw [SplitOp.apply, VsplitWAttr_spec run σ p attr pane wa w sess hp hwa hw hs]; rfl⟩

/-- The numbering survives the append of a pane numbered with the count of
the panes. -/
theorem PanesNumbered_heapAfterSplit (h : Heap) (wa : Nat) (w : Window) (sess : Session)
    (n : Nat) (hw : h.windows[wa]? = some w) (hs : h.loadSession w.Session = some sess)
    (hlen : w.Panes.length = n)
    (hall : ∀ i, i < n → ∃ pa pane, w.Panes[i]? = some (some pa) ∧ h.panes[pa]? = some pane
        ∧ pane.Number = (i : Int) ∧ pane.window = some wa) :
    PanesNumbered (heapAfterSplit h wa w ((n : Int))) wa (n + 1) := by
  have hlt : wa < h.windows.length := by
    rcases List.getElem?_eq_some.mp hw with ⟨h, _⟩
    exact h
  refine ⟨{ w with Panes := w.Panes ++ [some h.panes.length] }, sess, ?_, ?_, ?_, ?_⟩
  · simp [heapAfterSplit, hlt]
  · simpa [heapAfterSplit, Heap.loadSession] using hs
  · simp [hlen]
  · intro i hi
    by_cases hin : i < n
    · obtain ⟨pa, pane, h1, h2, h3, h4⟩ := hall i hin
      have hpa : pa < h.panes.length := by
        rcases List.getElem?_eq_some.mp h2 with ⟨h, _⟩
        exact h
      refine ⟨pa, pane, ?_, ?_, h3, h4⟩
      · rw [List.getElem?_append_left (by omega)]
        exact h1
      · simp only [heapAfterSplit]
        rw [List.getElem?_append_left hpa]
        exact h2
    · have hi2 : i = n := by omega
      subst hi2
      refine ⟨h.panes.length, { Number := (i : Int), commands := [], window := some wa },
        ?_, ?_, rfl, rfl⟩
      · simp [← hlen]
      · simp [heapAfterSplit]

/-- Splitting the last pane again and again keeps the panes numbered by their
index, as long as the numbers stay below the largest `int`. -/
theorem splitLast_numbered (run : Runner) (wa : Nat) (ops : List SplitOp) :
    ∀ (σ : State) (n : Nat), PanesNumbered σ.heap wa (n + 1) →
      ((n + ops.length : Nat) : Int) ≤ maxInt →
      ∃ σ', splitLast run (some wa) ops σ = some σ'
        ∧ PanesNumbered σ'.heap wa (n + 1 + ops.length) := by
  induction ops with
  | nil =>
    intro σ n hinv _
    exact ⟨σ, rfl, hinv⟩
  | cons op ops ih =>
    intro σ n hinv hmax
    obtain ⟨w, sess, hw, hs, hlen, hall⟩ := hinv
    obtain ⟨pa, pane, h1, h2, h3, h4⟩ := hall n (by omega)
    have hlast : w.Panes.getLast? = some (some pa) := by
      rw [List.getLast?_eq_getElem?, hlen]
      exact h1
    have hmax2 : ((n : Nat) : Int) < maxInt := by
      simp only [List.length_cons] at hmax
      push_cast at hmax
      omega
    have hk : isInt pane.Number := by
      rw [h3]
      unfold isInt minInt maxInt intBits at *
      norm_num at *
      omega
    have hadd := (addInt_one pane.Number hk (by rw [h3]; omega)).1
    obtain ⟨tr, happ⟩ := SplitOp_apply_spec run op σ (some pa) pane wa w sess h2 h4 hw hs
    have hinv2 := PanesNumbered_heapAfterSplit σ.heap wa w sess (n + 1) hw hs hlen hall
    have hnum : addInt pane.Number 1 = ((n + 1 : Nat) : Int) := by
      rw [hadd, h3]
      push_cast
      rfl
    rw [hnum] at happ
    obtain ⟨σ', hrun, hfin⟩ := ih
      { heap := heapAfterSplit σ.heap wa w ((n + 1 : Nat) : Int), trace := tr } (n + 1) hinv2
      (by simp only [List.length_cons] at hmax; push_cast at hmax ⊢; omega)
    refine ⟨σ', ?_, ?_⟩
    · have hw2 : σ.heap.loadWindow (some wa) = some w := hw
      simp only [splitLast, hw2, hlast, happ]
      exact hrun
    · have : n + 1 + (op :: ops).length = n + 1 + 1 + ops.length := by
        simp only [List.length_cons]; omega
      rw [this]
      exact hfin

theorem createWindow_heap (run : Runner) (σ : State) (a : Nat) (sess : Session)
    (number : Int) (attr : WindowAttr) (hs : σ.heap.loadSession (some a) = some sess) :
    ∃ err tr, createWindow run number attr (some a) σ
      = some ((some σ.heap.windows.length, err),
              { heap := heapAfterCreate σ.heap number attr (some a), trace := tr }) := by
  have hspec := createWindow_spec run σ a sess number attr hs
  dsimp only at hspec
  rw [hspec]
  by_cases h0 : number = 0
  · rw [if_pos h0]
    exact ⟨_, _, rfl⟩
  · rw [if_neg h0]
    by_cases he : (run σ.trace (newWindow.mk ["-t", sess.Name ++ ":" ++ Sprint number]
        attr.Name attr.Directory).String).err ≠ none
    · rw [if_pos he]
      exact ⟨_, _, rfl⟩
    · rw [if_neg he]
      exact ⟨_, _, rfl⟩

theorem PanesNumbered_heapAfterCreate (h : Heap) (a : Nat) (sess : Session) (number : Int)
    (attr : WindowAttr) (hs : h.loadSession (some a) = some sess) :
    PanesNumbered (heapAfterCreate h number attr (some a)) h.windows.length 1 := by
  refine ⟨{ Number := number, Name := attr.Name, Directory := attr.Directory,
            Session := some a, Panes := [some h.panes.length], SplitCommands := [] },
          sess, ?_, ?_, rfl, ?_⟩
  · simp [heapAfterCreate]
  · simpa [heapAfterCreate, Heap.loadSession] using hs
  · intro i hi
    have hi0 : i = 0 := by omega
    subst hi0
    refine ⟨h.panes.length, { Number := 0, commands := [], window := some h.windows.length },
      ?_, ?_, rfl, rfl⟩
    · simp
    · simp [heapAfterCreate]

/-- C20: starting from a window as `createWindow` builds it on a live
session (its panes are the one pane numbered 0), after any sequence of split
operations, each performed on the pane that is last in the window's `Panes`
at that moment, every operation returns, the window holds one pane more per
split, and for every index `i` below the number of panes `Window.Pane(i)`
returns the pane at index `i`, which is live and has `Number = i`.  The
length of the sequence is bounded by the largest `int`, as the length of a Go
slice is. -/
theorem splits_keep_panes_numbered (run : Runner) (σ : State) (a : Nat) (sess : Session)
    (number : Int) (attr : WindowAttr) (ops : List SplitOp)
    (hs : σ.heap.loadSession (some a) = some sess)
    (hlen : (ops.length : Int) ≤ maxInt) :
    ∃ err σ1 σ2 w,
      createWindow run number attr (some a) σ
        = some ((some σ.heap.windows.length, err), σ1)
      ∧ (σ1.heap.loadWindow (some σ.heap.windows.length)).map (fun x => x.Panes)
        = some [some σ.heap.panes.length]
      ∧ (σ1.heap.loadPane (some σ.heap.panes.length)).map (fun x => x.Number) = some 0
      ∧ splitLast run (some σ.heap.windows.length) ops σ1 = some σ2
      ∧ σ2.heap.loadWindow (some σ.heap.windows.length) = some w
      ∧ w.Panes.length = ops.length + 1
      ∧ ∀ i : Nat, i < w.Panes.length →
          ∃ p pane, Window.Pane (some σ.heap.windows.length) (i : Int) σ2.heap = some p
            ∧ w.Panes[i]? = some p
            ∧ σ2.heap.loadPane p = some pane
            ∧ pane.Number = (i : Int) := by
  obtain ⟨err, tr, hcw⟩ := createWindow_heap run σ a sess number attr hs
  have hinv := PanesNumbered_heapAfterCreate σ.heap a sess number attr hs
  obtain ⟨σ2, hrun, hfin⟩ := splitLast_numbered run σ.heap.windows.length ops
    { heap := heapAfterCreate σ.heap number attr (some a), trace := tr } 0 hinv
    (by simpa using hlen)
  obtain ⟨w, sess2, hw, _, hwlen, hall⟩ := hfin
  refine ⟨err, _, σ2, w, hcw, ?_, ?_, hrun, hw, by omega, ?_⟩
  · simp [heapAfterCreate, Heap.loadWindow]
  · simp [heapAfterCreate, Heap.loadPane]
  · intro i hi
    obtain ⟨pa, pane, h1, h2, h3, _⟩ := hall i (by omega)
    have hw2 : σ2.heap.loadWindow (some σ.heap.windows.length) = some w := hw
    refine ⟨some pa, pane, ?_, h1, h2, h3⟩
    simp [Window.Pane, hw2, h1]

theorem splits_keep_panes_numbered_witness :
    freshState.heap.loadSession (some 0)
        = some { Name := "s", Directory := "", Windows := [], directory := "",
                 NextWindowNumber := 0 }
    ∧ (([SplitOp.split, SplitOp.vsplit, SplitOp.splitWAttr ⟨"/x"⟩].length : Nat) : Int)
        ≤ maxInt
    ∧ ∃ err σ1 σ2 w,
      createWindow failRunner 0 ⟨"w", ""⟩ (some 0) freshState = some ((some 0, err), σ1)
      ∧ splitLast failRunner (some 0)
          [SplitOp.split, SplitOp.vsplit, SplitOp.splitWAttr ⟨"/x"⟩] σ1 = some σ2
      ∧ σ2.heap.loadWindow (some 0) = some w
      ∧ w.Panes.length = 4
      ∧ ∀ i : Nat, i < w.Panes.length →
          ∃ p pane, Window.Pane (some 0) (i : Int) σ2.heap = some p
            ∧ w.Panes[i]? = some p
            ∧ σ2.heap.loadPane p = some pane
            ∧ pane.Number = (i : Int) := by
  obtain ⟨err, σ1, σ2, w, h1, _, _, h4, h5, h6, h7⟩ :=
    splits_keep_panes_numbered failRunner freshState 0 _ 0 ⟨"w", ""⟩
      [SplitOp.split, SplitOp.vsplit, SplitOp.splitWAttr ⟨"/x"⟩] rfl (by decide)
  exact ⟨rfl, by decide, err, σ1, σ2, w, h1, h4, h5, h6, h7⟩

/-- On a fresh session, window 0 after three splits of its last pane holds
panes numbered 0, 1, 2, 3 at the indices 0, 1, 2, 3. -/
theorem splits_numbers_fresh :
    ((createWindow failRunner 0 ⟨"w", ""⟩ (some 0) freshState).bind fun r =>
      (splitLast failRunner r.1.1
          [SplitOp.split, SplitOp.vsplit, SplitOp.splitWAttr ⟨"/x"⟩] r.2).map fun σ2 =>
        [(0 : Int), 1, 2, 3].map fun i =>
          ((Window.Pane (some 0) i σ2.heap).bind σ2.heap.loadPane).map fun x => x.Number)
      = some [some 0, some 1, some 2, some 3] := by
  rfl

end Gomux
